import Mathlib

/-!
Verification of the retry-interval subsystem of the `sql-client` crate.

This file gives a shallow embedding of the retry-interval generation code
(`src/retry_enumerators/`, `src/retry_enumerators2/`, `src/sql_retry_interval.rs`)
and proves or refutes the frozen claims about it.

Modelling conventions:
* `std::time::Duration` is modelled as a natural number of nanoseconds
  (`Duration` is a non-negative span with nanosecond resolution; its order,
  addition, `as_millis` and `from_millis` are reproduced on `Nat`).
* `u64` values (the jitter window bounds, the random draws and the exponential
  step counter) are modelled as `Nat`; where the Rust code can overflow `u64`,
  the release-mode wrapping semantics is reproduced with explicit `% 2^64`.
* `f64` arithmetic appears only in the jitter-window computation
  (`get_random_interval`).  There it is modelled by exact rational arithmetic
  on the executable fraction type `FloatQ`; the casts at the boundary of the
  pipeline are modelled faithfully (in particular `u64::MAX as f64` rounds up
  to `2^64`, `f64::round` rounds half away from zero, and `as u64` on an `f64`
  truncates toward zero and saturates into `[0, u64::MAX]`).  Intermediate
  products are exact (not re-rounded to 53-bit precision); every concrete
  input exercised below is small enough (or exactly a power of two) that the
  exact product coincides with the `f64` product.
* The process-global RNG behind `rand::thread_rng().gen_range(min..max)` is
  modelled as an oracle: each call to `move_next`/`next_interval` takes the value
  the generator would have produced as an explicit `draw` argument, which the
  code only consults when the window is non-degenerate.
-/

namespace SqlClient

/-- Nanoseconds in one millisecond. -/
def nsPerMs : Nat := 1000000

/-- `Duration::from_millis`. -/
def durMillis (m : Nat) : Nat := m * nsPerMs

/-- `Duration::from_secs`. -/
def durSecs (s : Nat) : Nat := s * 1000000000

/-- `Duration::as_millis` (truncating division). -/
def durAsMillis (d : Nat) : Nat := d / nsPerMs

/-- `2^64`, the modulus of `u64` arithmetic. -/
def U64_MOD : Nat := 2 ^ 64

/-- `u64::MAX`. -/
def U64_MAX : Nat := 2 ^ 64 - 1

/-- `u64::MIN`. -/
def U64_MIN : Nat := 0

/-- The error type of the crate (`src/sql_client_error.rs`).  The retry
enumerator modules additionally construct an `ArgumentOutOfRange(parameter,
message)` variant at their call sites, so it is included here. -/
inductive SqlClientError where
  | UnsupportedFormat (parameter : String)
  | UnsupportedValue (kind : String) (value : String)
  | UnsupportedKeyword (keyword : String)
  | ArgumentNull (parameter : String)
  | InvalidArgumentLength (parameter : String) (value : String) (length : Nat)
  | ArgumentOutOfRange (parameter : String) (message : String)
deriving DecidableEq

/-- Exact-fraction model of an `f64` value: the rational `num / den`.
All `f64` values that actually occur have `0 < den`. -/
structure FloatQ where
  num : Int
  den : Nat
deriving DecidableEq

/-- `f64` addition, modelled exactly. -/
def FloatQ.add (x y : FloatQ) : FloatQ :=
  ⟨x.num * (y.den : Int) + y.num * (x.den : Int), x.den * y.den⟩

/-- `f64` subtraction, modelled exactly. -/
def FloatQ.sub (x y : FloatQ) : FloatQ :=
  ⟨x.num * (y.den : Int) - y.num * (x.den : Int), x.den * y.den⟩

/-- `f64` multiplication, modelled exactly. -/
def FloatQ.mul (x y : FloatQ) : FloatQ :=
  ⟨x.num * y.num, x.den * y.den⟩

/-- The `f64` comparison `x > y` (for fractions with positive denominators). -/
def FloatQ.gtB (x y : FloatQ) : Bool :=
  decide (y.num * (x.den : Int) < x.num * (y.den : Int))

/-- `f64::round`: rounds half away from zero, yielding an integer. -/
def FloatQ.roundToInt (x : FloatQ) : Int :=
  if 0 ≤ x.num then Int.fdiv (2 * x.num + (x.den : Int)) (2 * (x.den : Int))
  else -(Int.fdiv (2 * (-x.num) + (x.den : Int)) (2 * (x.den : Int)))

/-- The `as u64` cast applied to an integral `f64` value: saturates into
`[0, u64::MAX]`. -/
def castIntU64 (i : Int) : Nat :=
  if i < 0 then 0 else min i.toNat U64_MAX

/-- The `as u64` cast applied to an arbitrary `f64` value: truncates toward
zero, then saturates into `[0, u64::MAX]`. -/
def castF64toU64 (x : FloatQ) : Nat :=
  castIntU64 (Int.tdiv x.num (x.den : Int))

/-- An integer (`as f64` conversion of a natural number), modelled exactly. -/
def natToF (n : Nat) : FloatQ := ⟨(n : Int), 1⟩

/-- The literal `1.0`. -/
def oneF : FloatQ := ⟨1, 1⟩

/-- The literal `0.0`. -/
def zeroF : FloatQ := ⟨0, 1⟩

/-- The literal `0.2` (the default randomness used by `new`). -/
def pt2F : FloatQ := ⟨2, 10⟩

/-- The literal `0.6` (used in the out-of-range lower-bound clamp). -/
def pt6F : FloatQ := ⟨6, 10⟩

/-- `u64::MAX as f64`.  `u64::MAX = 2^64 - 1` is not representable as an
`f64`; the cast rounds to the nearest representable value, which is `2^64`. -/
def U64_MAX_AS_F64 : FloatQ := ⟨(2 : Int) ^ 64, 1⟩

/-- `u64::MIN as f64`, i.e. `0.0`. -/
def U64_MIN_AS_F64 : FloatQ := natToF U64_MIN

/-- Boolean check that a list of naturals is non-decreasing. -/
def nondecreasing : List Nat → Bool
  | [] => true
  | [_] => true
  | a :: b :: t => if a ≤ b then nondecreasing (b :: t) else false

/-- One interaction with a retry enumerator: either a `move_next` call
(carrying the value the RNG would produce) or a `reset` call. -/
inductive RetryOp where
  | move (draw : Nat)
  | reset
deriving DecidableEq

/-! ## `src/retry_enumerators/mod.rs` and its enumerators -/

namespace RetryEnumerators

/-- `MIN_DURATION`: the minimum allowable min, max, or gap interval. -/
def MIN_DURATION : Nat := 0

/-- `MAX_DURATION`: the maximum allowable min, max, or gap interval (120 s). -/
def MAX_DURATION : Nat := durSecs 120

/-- `get_random_interval` of `retry_enumerators/mod.rs`: gets a range of
values on either side of the gap time interval. -/
def get_random_interval (gap_time_interval : Nat) (randomness : FloatQ) : Nat × Nat :=
  let temp_max := (natToF (durAsMillis gap_time_interval)).mul (oneF.add randomness)
  let temp_min := (natToF (durAsMillis gap_time_interval)).mul (oneF.sub randomness)
  let max_random := if temp_max.gtB U64_MAX_AS_F64 then U64_MAX
    else castIntU64 temp_max.roundToInt
  let min_random := if temp_min.gtB U64_MAX_AS_F64 then castF64toU64 (U64_MIN_AS_F64.mul pt6F)
    else castIntU64 temp_min.roundToInt
  (min_random, max_random)

/-- `get_random` of `retry_enumerators/mod.rs`: if the range is degenerate the
bound itself is returned; otherwise the RNG produces a value in
`[min_random, max_random)`, modelled by the `draw` oracle argument. -/
def get_random (min_random max_random draw : Nat) : Nat :=
  if max_random = min_random then min_random else draw

/-- `validate` of `retry_enumerators/mod.rs` (identical in
`sql_retry_interval.rs` and `retry_enumerators2/mod.rs`).  Note the first
branch tests `max_time_interval > MAX_DURATION`, not `min_time_interval`. -/
def validate (gap_time_interval max_time_interval min_time_interval : Nat) :
    Except SqlClientError Unit :=
  if min_time_interval < MIN_DURATION ∨ max_time_interval > MAX_DURATION then
    .error (.ArgumentOutOfRange "min_time_interval"
      "min_time_interval must be between 0ns and 120s")
  else if max_time_interval < MIN_DURATION ∨ max_time_interval > MAX_DURATION then
    .error (.ArgumentOutOfRange "max_time_interval"
      "max_time_interval must be between 0ns and 120s")
  else if gap_time_interval < MIN_DURATION ∨ gap_time_interval > MAX_DURATION then
    .error (.ArgumentOutOfRange "gap_time_interval"
      "gap_time_interval must be between 0ns and 120s")
  else if max_time_interval < min_time_interval then
    .error (.ArgumentOutOfRange "max_time_interval"
      "max_time_interval must be greater than min_time_interval")
  else
    .ok ()

/-- State of `SqlIncrementalIntervalEnumerator`
(`retry_enumerators/sql_incremental_interval_enumerator.rs`). -/
structure SqlIncrementalIntervalEnumerator where
  max_random : Nat
  min_random : Nat
  min_time_interval : Nat
  max_time_interval : Nat
  current : Nat
deriving DecidableEq

/-- `SqlIncrementalIntervalEnumerator::new_random`. -/
def SqlIncrementalIntervalEnumerator.new_random
    (delta_backoff_time max_time_interval min_time_interval : Nat)
    (randomness : FloatQ) :
    Except SqlClientError SqlIncrementalIntervalEnumerator :=
  match validate delta_backoff_time max_time_interval min_time_interval with
  | .error e => .error e
  | .ok _ =>
    let rr := get_random_interval delta_backoff_time randomness
    .ok { max_random := rr.2, min_random := rr.1,
          max_time_interval, min_time_interval, current := 0 }

/-- `SqlIncrementalIntervalEnumerator::new` (randomness 0.2). -/
def SqlIncrementalIntervalEnumerator.new
    (delta_backoff_time max_time_interval min_time_interval : Nat) :
    Except SqlClientError SqlIncrementalIntervalEnumerator :=
  SqlIncrementalIntervalEnumerator.new_random delta_backoff_time max_time_interval
    min_time_interval pt2F

/-- `SqlIncrementalIntervalEnumerator::next_interval`. -/
def SqlIncrementalIntervalEnumerator.next_interval
    (s : SqlIncrementalIntervalEnumerator) (draw : Nat) : Nat :=
  if s.current < s.min_time_interval then s.min_time_interval
  else s.current + durMillis (get_random s.min_random s.max_random draw)

/-- `SqlIncrementalIntervalEnumerator::move_next` (trait `SqlRetryInterval`):
returns the boolean result together with the mutated state. -/
def SqlIncrementalIntervalEnumerator.move_next
    (s : SqlIncrementalIntervalEnumerator) (draw : Nat) :
    Bool × SqlIncrementalIntervalEnumerator :=
  if s.current < s.max_time_interval then
    let next := s.next_interval draw
    if next ≤ s.max_time_interval then (true, { s with current := next })
    else (false, s)
  else (false, s)

/-- `SqlIncrementalIntervalEnumerator::reset`. -/
def SqlIncrementalIntervalEnumerator.reset
    (s : SqlIncrementalIntervalEnumerator) : SqlIncrementalIntervalEnumerator :=
  { s with current := 0 }

/-- `SqlIncrementalIntervalEnumerator::current`. -/
def SqlIncrementalIntervalEnumerator.currentVal
    (s : SqlIncrementalIntervalEnumerator) : Nat := s.current

/-- Run a sequence of `move_next`/`reset` calls. -/
def SqlIncrementalIntervalEnumerator.runOps
    (s : SqlIncrementalIntervalEnumerator) (ops : List RetryOp) :
    SqlIncrementalIntervalEnumerator :=
  match ops with
  | [] => s
  | .move d :: t => ((s.move_next d).2).runOps t
  | .reset :: t => (s.reset).runOps t

/-- Observations of a sequence of calls: for each op, the boolean returned by
`move_next` (or `none` for `reset`) paired with `current()` after the call. -/
def SqlIncrementalIntervalEnumerator.trace
    (s : SqlIncrementalIntervalEnumerator) (ops : List RetryOp) :
    List (Option Bool × Nat) :=
  match ops with
  | [] => []
  | .move d :: t =>
    let r := s.move_next d
    (some r.1, r.2.current) :: r.2.trace t
  | .reset :: t => (none, (s.reset).current) :: (s.reset).trace t

/-- The values of `current()` observed after each `move_next` call that
returned `true`. -/
def SqlIncrementalIntervalEnumerator.successCurrents
    (s : SqlIncrementalIntervalEnumerator) (draws : List Nat) : List Nat :=
  match draws with
  | [] => []
  | d :: t =>
    let r := s.move_next d
    if r.1 then r.2.current :: r.2.successCurrents t else r.2.successCurrents t

/-- The booleans returned by consecutive `move_next` calls. -/
def SqlIncrementalIntervalEnumerator.moveResults
    (s : SqlIncrementalIntervalEnumerator) (draws : List Nat) : List Bool :=
  match draws with
  | [] => []
  | d :: t =>
    let r := s.move_next d
    r.1 :: r.2.moveResults t

/-- State of `SqlExponentialIntervalEnumerator`
(`retry_enumerators/sql_exponential_interval_enumerator.rs`). -/
structure SqlExponentialIntervalEnumerator where
  internal_counter : Nat
  max_random : Nat
  min_random : Nat
  min_time_interval : Nat
  max_time_interval : Nat
  current : Nat
deriving DecidableEq

/-- `SqlExponentialIntervalEnumerator::new_random`. -/
def SqlExponentialIntervalEnumerator.new_random
    (delta_backoff_time max_time_interval min_time_interval : Nat)
    (randomness : FloatQ) :
    Except SqlClientError SqlExponentialIntervalEnumerator :=
  match validate delta_backoff_time max_time_interval min_time_interval with
  | .error e => .error e
  | .ok _ =>
    let rr := get_random_interval delta_backoff_time randomness
    .ok { internal_counter := 1, max_random := rr.2, min_random := rr.1,
          max_time_interval, min_time_interval, current := 0 }

/-- `SqlExponentialIntervalEnumerator::new` (randomness 0.2). -/
def SqlExponentialIntervalEnumerator.new
    (delta_backoff_time max_time_interval min_time_interval : Nat) :
    Except SqlClientError SqlExponentialIntervalEnumerator :=
  SqlExponentialIntervalEnumerator.new_random delta_backoff_time max_time_interval
    min_time_interval pt2F

/-- `SqlExponentialIntervalEnumerator::next_interval`: returns the candidate
interval and the state with the counter incremented unconditionally.
`internal_counter.pow(2) - 1`, `exponent * random` and `internal_counter += 1`
are `u64` operations; their release-mode wrapping semantics is made explicit
with `% U64_MOD` (debug builds would panic instead of wrapping). -/
def SqlExponentialIntervalEnumerator.next_interval
    (s : SqlExponentialIntervalEnumerator) (draw : Nat) :
    Nat × SqlExponentialIntervalEnumerator :=
  let exponent := (s.internal_counter ^ 2 % U64_MOD + (U64_MOD - 1)) % U64_MOD
  let random := get_random s.min_random s.max_random draw
  let delta := exponent * random % U64_MOD
  let new_time := s.min_time_interval + durMillis delta
  (new_time, { s with internal_counter := (s.internal_counter + 1) % U64_MOD })

/-- `SqlExponentialIntervalEnumerator::move_next` (trait `SqlRetryInterval`). -/
def SqlExponentialIntervalEnumerator.move_next
    (s : SqlExponentialIntervalEnumerator) (draw : Nat) :
    Bool × SqlExponentialIntervalEnumerator :=
  if s.current < s.max_time_interval then
    let r := s.next_interval draw
    if r.1 ≤ s.max_time_interval then (true, { r.2 with current := r.1 })
    else (false, r.2)
  else (false, s)

/-- `SqlExponentialIntervalEnumerator::reset`. -/
def SqlExponentialIntervalEnumerator.reset
    (s : SqlExponentialIntervalEnumerator) : SqlExponentialIntervalEnumerator :=
  { s with current := 0, internal_counter := 1 }

/-- `SqlExponentialIntervalEnumerator::current`. -/
def SqlExponentialIntervalEnumerator.currentVal
    (s : SqlExponentialIntervalEnumerator) : Nat := s.current

/-- Run a sequence of `move_next`/`reset` calls. -/
def SqlExponentialIntervalEnumerator.runOps
    (s : SqlExponentialIntervalEnumerator) (ops : List RetryOp) :
    SqlExponentialIntervalEnumerator :=
  match ops with
  | [] => s
  | .move d :: t => ((s.move_next d).2).runOps t
  | .reset :: t => (s.reset).runOps t

/-- Observations of a sequence of calls (as for the incremental enumerator). -/
def SqlExponentialIntervalEnumerator.trace
    (s : SqlExponentialIntervalEnumerator) (ops : List RetryOp) :
    List (Option Bool × Nat) :=
  match ops with
  | [] => []
  | .move d :: t =>
    let r := s.move_next d
    (some r.1, r.2.current) :: r.2.trace t
  | .reset :: t => (none, (s.reset).current) :: (s.reset).trace t

/-- The values of `current()` observed after each `move_next` call that
returned `true`. -/
def SqlExponentialIntervalEnumerator.successCurrents
    (s : SqlExponentialIntervalEnumerator) (draws : List Nat) : List Nat :=
  match draws with
  | [] => []
  | d :: t =>
    let r := s.move_next d
    if r.1 then r.2.current :: r.2.successCurrents t else r.2.successCurrents t

/-- The booleans returned by consecutive `move_next` calls. -/
def SqlExponentialIntervalEnumerator.moveResults
    (s : SqlExponentialIntervalEnumerator) (draws : List Nat) : List Bool :=
  match draws with
  | [] => []
  | d :: t =>
    let r := s.move_next d
    r.1 :: r.2.moveResults t

end RetryEnumerators

/-! ## `src/retry_enumerators2/mod.rs` -/

namespace RetryEnumerators2

/-- `MIN_DURATION` of `retry_enumerators2/mod.rs`. -/
def MIN_DURATION : Nat := 0

/-- `MAX_DURATION` of `retry_enumerators2/mod.rs`. -/
def MAX_DURATION : Nat := durSecs 120

/-- `get_random_interval` of `retry_enumerators2/mod.rs` (textually identical
to the `retry_enumerators` one). -/
def get_random_interval (gap_time_interval : Nat) (randomness : FloatQ) : Nat × Nat :=
  let temp_max := (natToF (durAsMillis gap_time_interval)).mul (oneF.add randomness)
  let temp_min := (natToF (durAsMillis gap_time_interval)).mul (oneF.sub randomness)
  let max_random := if temp_max.gtB U64_MAX_AS_F64 then U64_MAX
    else castIntU64 temp_max.roundToInt
  let min_random := if temp_min.gtB U64_MAX_AS_F64 then castF64toU64 (U64_MIN_AS_F64.mul pt6F)
    else castIntU64 temp_min.roundToInt
  (min_random, max_random)

/-- `get_random` of `retry_enumerators2/mod.rs`. -/
def get_random (min_random max_random draw : Nat) : Nat :=
  if max_random = min_random then min_random else draw

/-- `validate` of `retry_enumerators2/mod.rs` (textually identical to the
`retry_enumerators` one). -/
def validate (gap_time_interval max_time_interval min_time_interval : Nat) :
    Except SqlClientError Unit :=
  if min_time_interval < MIN_DURATION ∨ max_time_interval > MAX_DURATION then
    .error (.ArgumentOutOfRange "min_time_interval"
      "min_time_interval must be between 0ns and 120s")
  else if max_time_interval < MIN_DURATION ∨ max_time_interval > MAX_DURATION then
    .error (.ArgumentOutOfRange "max_time_interval"
      "max_time_interval must be between 0ns and 120s")
  else if gap_time_interval < MIN_DURATION ∨ gap_time_interval > MAX_DURATION then
    .error (.ArgumentOutOfRange "gap_time_interval"
      "gap_time_interval must be between 0ns and 120s")
  else if max_time_interval < min_time_interval then
    .error (.ArgumentOutOfRange "max_time_interval"
      "max_time_interval must be greater than min_time_interval")
  else
    .ok ()

/-- State of `retry_enumerators2::SqlExponentialIntervalEnumerator`. -/
structure SqlExponentialIntervalEnumerator where
  internal_counter : Nat
  max_random : Nat
  min_random : Nat
  min_time_interval : Nat
  max_time_interval : Nat
  current : Nat
deriving DecidableEq

/-- `SqlExponentialIntervalEnumerator::new_random` of `retry_enumerators2`. -/
def SqlExponentialIntervalEnumerator.new_random
    (delta_backoff_time max_time_interval min_time_interval : Nat)
    (randomness : FloatQ) :
    Except SqlClientError SqlExponentialIntervalEnumerator :=
  match validate delta_backoff_time max_time_interval min_time_interval with
  | .error e => .error e
  | .ok _ =>
    let rr := get_random_interval delta_backoff_time randomness
    .ok { internal_counter := 1, max_random := rr.2, min_random := rr.1,
          max_time_interval, min_time_interval, current := 0 }

/-- `SqlExponentialIntervalEnumerator::new` of `retry_enumerators2`. -/
def SqlExponentialIntervalEnumerator.new
    (delta_backoff_time max_time_interval min_time_interval : Nat) :
    Except SqlClientError SqlExponentialIntervalEnumerator :=
  SqlExponentialIntervalEnumerator.new_random delta_backoff_time max_time_interval
    min_time_interval pt2F

/-- `SqlRetryIntervalInternal::min_time_interval_ref` for the exponential
enumerator of `retry_enumerators2`. -/
def SqlExponentialIntervalEnumerator.min_time_interval_ref
    (s : SqlExponentialIntervalEnumerator) : Nat := s.min_time_interval

/-- `SqlRetryIntervalInternal::max_time_interval_ref`. -/
def SqlExponentialIntervalEnumerator.max_time_interval_ref
    (s : SqlExponentialIntervalEnumerator) : Nat := s.max_time_interval

/-- `SqlRetryIntervalInternal::current_ref`. -/
def SqlExponentialIntervalEnumerator.current_ref
    (s : SqlExponentialIntervalEnumerator) : Nat := s.current

/-- `SqlRetryIntervalInternal::set_current`. -/
def SqlExponentialIntervalEnumerator.set_current
    (s : SqlExponentialIntervalEnumerator) (value : Nat) :
    SqlExponentialIntervalEnumerator :=
  { s with current := value }

/-- `SqlRetryIntervalInternal::next_interval` for the exponential enumerator
of `retry_enumerators2` (same body as the `retry_enumerators` version). -/
def SqlExponentialIntervalEnumerator.next_interval
    (s : SqlExponentialIntervalEnumerator) (draw : Nat) :
    Nat × SqlExponentialIntervalEnumerator :=
  let exponent := (s.internal_counter ^ 2 % U64_MOD + (U64_MOD - 1)) % U64_MOD
  let random := get_random s.min_random s.max_random draw
  let delta := exponent * random % U64_MOD
  let new_time := s.min_time_interval + durMillis delta
  (new_time, { s with internal_counter := (s.internal_counter + 1) % U64_MOD })

/-- `SqlRetryIntervalInternal::reset_hidden`. -/
def SqlExponentialIntervalEnumerator.reset_hidden
    (s : SqlExponentialIntervalEnumerator) : SqlExponentialIntervalEnumerator :=
  { s with current := 0, internal_counter := 1 }

/-- `current` from the blanket `impl<S> SqlRetryInterval for S` over
`SqlRetryIntervalInternal`. -/
def SqlExponentialIntervalEnumerator.currentVal
    (s : SqlExponentialIntervalEnumerator) : Nat := s.current_ref

/-- `move_next` from the blanket `impl<S> SqlRetryInterval for S`: written in
terms of the internal-trait operations only. -/
def SqlExponentialIntervalEnumerator.move_next
    (s : SqlExponentialIntervalEnumerator) (draw : Nat) :
    Bool × SqlExponentialIntervalEnumerator :=
  if s.current_ref < s.max_time_interval_ref then
    let r := s.next_interval draw
    if r.1 ≤ r.2.max_time_interval_ref then (true, r.2.set_current r.1)
    else (false, r.2)
  else (false, s)

/-- `reset` from the blanket `impl<S> SqlRetryInterval for S`. -/
def SqlExponentialIntervalEnumerator.reset
    (s : SqlExponentialIntervalEnumerator) : SqlExponentialIntervalEnumerator :=
  s.reset_hidden

/-- Observations of a sequence of calls. -/
def SqlExponentialIntervalEnumerator.trace
    (s : SqlExponentialIntervalEnumerator) (ops : List RetryOp) :
    List (Option Bool × Nat) :=
  match ops with
  | [] => []
  | .move d :: t =>
    let r := s.move_next d
    (some r.1, r.2.currentVal) :: r.2.trace t
  | .reset :: t => (none, (s.reset).currentVal) :: (s.reset).trace t

end RetryEnumerators2

/-! ## `src/sql_retry_interval.rs` -/

namespace SqlRetryIntervalFile

/-- `MIN_DURATION` of `sql_retry_interval.rs`. -/
def MIN_DURATION : Nat := 0

/-- `MAX_DURATION` of `sql_retry_interval.rs`. -/
def MAX_DURATION : Nat := durSecs 120

/-- `validate` of `sql_retry_interval.rs` (same logic as the other two). -/
def validate (gap_time_interval max_time_interval min_time_interval : Nat) :
    Except SqlClientError Unit :=
  if min_time_interval < MIN_DURATION ∨ max_time_interval > MAX_DURATION then
    .error (.ArgumentOutOfRange "min_time_interval"
      "min_time_interval must be between 0ns and 120s")
  else if max_time_interval < MIN_DURATION ∨ max_time_interval > MAX_DURATION then
    .error (.ArgumentOutOfRange "max_time_interval"
      "max_time_interval must be between 0ns and 120s")
  else if gap_time_interval < MIN_DURATION ∨ gap_time_interval > MAX_DURATION then
    .error (.ArgumentOutOfRange "gap_time_interval"
      "gap_time_interval must be between 0ns and 120s")
  else if max_time_interval < min_time_interval then
    .error (.ArgumentOutOfRange "max_time_interval"
      "max_time_interval must be greater than min_time_interval")
  else
    .ok ()

/-- State of the exponential enumerator of `sql_retry_interval.rs` (this
variant also stores `delta_backoff_time`). -/
structure SqlExponentialIntervalEnumerator where
  internal_counter : Nat
  max_random : Nat
  min_random : Nat
  delta_backoff_time : Nat
  min_time_interval : Nat
  max_time_interval : Nat
  current : Nat
deriving DecidableEq

/-- `SqlExponentialIntervalEnumerator::new_random` of `sql_retry_interval.rs`:
the jitter-window computation is inlined in the constructor. -/
def SqlExponentialIntervalEnumerator.new_random
    (delta_backoff_time max_time_interval min_time_interval : Nat)
    (randomness : FloatQ) :
    Except SqlClientError SqlExponentialIntervalEnumerator :=
  match validate delta_backoff_time max_time_interval min_time_interval with
  | .error e => .error e
  | .ok _ =>
    let temp_max := (natToF (durAsMillis delta_backoff_time)).mul (oneF.add randomness)
    let temp_min := (natToF (durAsMillis delta_backoff_time)).mul (oneF.sub randomness)
    let max_random := if temp_max.gtB U64_MAX_AS_F64 then U64_MAX
      else castIntU64 temp_max.roundToInt
    let min_random := if temp_min.gtB U64_MAX_AS_F64 then castF64toU64 (U64_MIN_AS_F64.mul pt6F)
      else castIntU64 temp_min.roundToInt
    .ok { internal_counter := 1, max_random, min_random, delta_backoff_time,
          max_time_interval, min_time_interval, current := 0 }

/-- `SqlExponentialIntervalEnumerator::new` of `sql_retry_interval.rs`. -/
def SqlExponentialIntervalEnumerator.new
    (delta_backoff_time max_time_interval min_time_interval : Nat) :
    Except SqlClientError SqlExponentialIntervalEnumerator :=
  SqlExponentialIntervalEnumerator.new_random delta_backoff_time max_time_interval
    min_time_interval pt2F

/-- `SqlExponentialIntervalEnumerator::next_interval` of
`sql_retry_interval.rs` (the random draw is computed inline). -/
def SqlExponentialIntervalEnumerator.next_interval
    (s : SqlExponentialIntervalEnumerator) (draw : Nat) :
    Nat × SqlExponentialIntervalEnumerator :=
  let exponent := (s.internal_counter ^ 2 % U64_MOD + (U64_MOD - 1)) % U64_MOD
  let random := if s.max_random = s.min_random then s.min_random else draw
  let delta := exponent * random % U64_MOD
  let new_time := s.min_time_interval + durMillis delta
  (new_time, { s with internal_counter := (s.internal_counter + 1) % U64_MOD })

/-- `move_next` of the `SqlRetryInterval` impl in `sql_retry_interval.rs`. -/
def SqlExponentialIntervalEnumerator.move_next
    (s : SqlExponentialIntervalEnumerator) (draw : Nat) :
    Bool × SqlExponentialIntervalEnumerator :=
  if s.current < s.max_time_interval then
    let r := s.next_interval draw
    if r.1 ≤ s.max_time_interval then (true, { r.2 with current := r.1 })
    else (false, r.2)
  else (false, s)

/-- `reset` of the `SqlRetryInterval` impl in `sql_retry_interval.rs`.  Note:
this variant resets only the internal counter; `current` is left unchanged. -/
def SqlExponentialIntervalEnumerator.reset
    (s : SqlExponentialIntervalEnumerator) : SqlExponentialIntervalEnumerator :=
  { s with internal_counter := 1 }

/-- `SqlExponentialIntervalEnumerator::current` of `sql_retry_interval.rs`. -/
def SqlExponentialIntervalEnumerator.currentVal
    (s : SqlExponentialIntervalEnumerator) : Nat := s.current

end SqlRetryIntervalFile

/-- The field-for-field correspondence between the `retry_enumerators`
exponential enumerator and the `retry_enumerators2` one (their structs carry
exactly the same data). -/
def expToRE2 (s : RetryEnumerators.SqlExponentialIntervalEnumerator) :
    RetryEnumerators2.SqlExponentialIntervalEnumerator :=
  ⟨s.internal_counter, s.max_random, s.min_random, s.min_time_interval,
    s.max_time_interval, s.current⟩

/-! ## Helper lemmas -/

theorem nondecreasing_cons_cons {a b : Nat} {l : List Nat} (hab : a ≤ b)
    (h : nondecreasing (b :: l) = true) : nondecreasing (a :: b :: l) = true := by
  simp only [nondecreasing]
  rw [if_pos hab]
  exact h

theorem nondecreasing_tail {a : Nat} {l : List Nat}
    (h : nondecreasing (a :: l) = true) : nondecreasing l = true := by
  cases l with
  | nil => rfl
  | cons b t =>
    simp only [nondecreasing] at h
    split at h
    · exact h
    · exact absurd h (by simp)

namespace RetryEnumerators

theorem validate_ok_iff (g M m : Nat) :
    validate g M m = .ok () ↔ m ≤ M ∧ M ≤ MAX_DURATION ∧ g ≤ MAX_DURATION := by
  unfold validate MAX_DURATION MIN_DURATION durSecs
  split_ifs with h1 h2 h3 h4 <;> simp <;> omega

theorem validate_error_AOOR (g M m : Nat) (e : SqlClientError)
    (h : validate g M m = .error e) : ∃ p msg, e = .ArgumentOutOfRange p msg := by
  unfold validate at h
  split_ifs at h <;> injection h with h2 <;> exact ⟨_, _, h2.symm⟩

theorem inc_new_random_ok {g M m : Nat} {r : FloatQ}
    {s : SqlIncrementalIntervalEnumerator}
    (h : SqlIncrementalIntervalEnumerator.new_random g M m r = .ok s) :
    s = { max_random := (get_random_interval g r).2,
          min_random := (get_random_interval g r).1,
          min_time_interval := m, max_time_interval := M, current := 0 } ∧
      m ≤ M ∧ M ≤ MAX_DURATION ∧ g ≤ MAX_DURATION := by
  unfold SqlIncrementalIntervalEnumerator.new_random at h
  split at h
  all_goals try exact Except.noConfusion h
  all_goals
    rename_i u heq
    cases u
    dsimp only at h
    injection h with h2
    exact ⟨h2.symm, (validate_ok_iff g M m).mp heq⟩

theorem exp_new_random_ok {g M m : Nat} {r : FloatQ}
    {s : SqlExponentialIntervalEnumerator}
    (h : SqlExponentialIntervalEnumerator.new_random g M m r = .ok s) :
    s = { internal_counter := 1, max_random := (get_random_interval g r).2,
          min_random := (get_random_interval g r).1,
          min_time_interval := m, max_time_interval := M, current := 0 } ∧
      m ≤ M ∧ M ≤ MAX_DURATION ∧ g ≤ MAX_DURATION := by
  unfold SqlExponentialIntervalEnumerator.new_random at h
  split at h
  all_goals try exact Except.noConfusion h
  all_goals
    rename_i u heq
    cases u
    dsimp only at h
    injection h with h2
    exact ⟨h2.symm, (validate_ok_iff g M m).mp heq⟩

theorem inc_move_next_fields (s : SqlIncrementalIntervalEnumerator) (d : Nat) :
    ((s.move_next d).2).min_random = s.min_random ∧
      ((s.move_next d).2).max_random = s.max_random ∧
      ((s.move_next d).2).min_time_interval = s.min_time_interval ∧
      ((s.move_next d).2).max_time_interval = s.max_time_interval := by
  simp only [SqlIncrementalIntervalEnumerator.move_next]
  split_ifs <;> simp

theorem exp_move_next_fields (s : SqlExponentialIntervalEnumerator) (d : Nat) :
    ((s.move_next d).2).min_random = s.min_random ∧
      ((s.move_next d).2).max_random = s.max_random ∧
      ((s.move_next d).2).min_time_interval = s.min_time_interval ∧
      ((s.move_next d).2).max_time_interval = s.max_time_interval := by
  simp only [SqlExponentialIntervalEnumerator.move_next,
    SqlExponentialIntervalEnumerator.next_interval]
  split_ifs <;> simp

theorem inc_runOps_fields (ops : List RetryOp) :
    ∀ s : SqlIncrementalIntervalEnumerator,
      ((s.runOps ops).min_random = s.min_random ∧
        (s.runOps ops).max_random = s.max_random ∧
        (s.runOps ops).min_time_interval = s.min_time_interval ∧
        (s.runOps ops).max_time_interval = s.max_time_interval) := by
  induction ops with
  | nil => intro s; exact ⟨rfl, rfl, rfl, rfl⟩
  | cons op t ih =>
    intro s
    cases op with
    | move d =>
      obtain ⟨a1, a2, a3, a4⟩ := inc_move_next_fields s d
      obtain ⟨b1, b2, b3, b4⟩ := ih (s.move_next d).2
      exact ⟨b1.trans a1, b2.trans a2, b3.trans a3, b4.trans a4⟩
    | reset =>
      obtain ⟨b1, b2, b3, b4⟩ := ih s.reset
      exact ⟨b1, b2, b3, b4⟩

theorem exp_runOps_fields (ops : List RetryOp) :
    ∀ s : SqlExponentialIntervalEnumerator,
      ((s.runOps ops).min_random = s.min_random ∧
        (s.runOps ops).max_random = s.max_random ∧
        (s.runOps ops).min_time_interval = s.min_time_interval ∧
        (s.runOps ops).max_time_interval = s.max_time_interval) := by
  induction ops with
  | nil => intro s; exact ⟨rfl, rfl, rfl, rfl⟩
  | cons op t ih =>
    intro s
    cases op with
    | move d =>
      obtain ⟨a1, a2, a3, a4⟩ := exp_move_next_fields s d
      obtain ⟨b1, b2, b3, b4⟩ := ih (s.move_next d).2
      exact ⟨b1.trans a1, b2.trans a2, b3.trans a3, b4.trans a4⟩
    | reset =>
      obtain ⟨b1, b2, b3, b4⟩ := ih s.reset
      exact ⟨b1, b2, b3, b4⟩

theorem inc_move_next_current_le {s : SqlIncrementalIntervalEnumerator} (d : Nat)
    (h : s.current ≤ s.max_time_interval) :
    ((s.move_next d).2).current ≤ s.max_time_interval := by
  simp only [SqlIncrementalIntervalEnumerator.move_next]
  split_ifs with h1 h2
  · simpa using h2
  · simpa using h
  · simpa using h

theorem exp_move_next_current_le {s : SqlExponentialIntervalEnumerator} (d : Nat)
    (h : s.current ≤ s.max_time_interval) :
    ((s.move_next d).2).current ≤ s.max_time_interval := by
  simp only [SqlExponentialIntervalEnumerator.move_next,
    SqlExponentialIntervalEnumerator.next_interval]
  split_ifs with h1 h2
  · simpa using h2
  · simpa using h
  · simpa using h

theorem inc_runOps_current_le (ops : List RetryOp) :
    ∀ s : SqlIncrementalIntervalEnumerator, s.current ≤ s.max_time_interval →
      (s.runOps ops).current ≤ (s.runOps ops).max_time_interval := by
  induction ops with
  | nil => intro s h; exact h
  | cons op t ih =>
    intro s h
    cases op with
    | move d =>
      refine ih _ ?_
      have h2 := inc_move_next_current_le d h
      rw [(inc_move_next_fields s d).2.2.2]
      exact h2
    | reset =>
      refine ih _ ?_
      exact Nat.zero_le _


theorem exp_runOps_current_le (ops : List RetryOp) :
    ∀ s : SqlExponentialIntervalEnumerator, s.current ≤ s.max_time_interval →
      (s.runOps ops).current ≤ (s.runOps ops).max_time_interval := by
  induction ops with
  | nil => intro s h; exact h
  | cons op t ih =>
    intro s h
    cases op with
    | move d =>
      refine ih _ ?_
      have h2 := exp_move_next_current_le d h
      rw [(exp_move_next_fields s d).2.2.2]
      exact h2
    | reset =>
      refine ih _ ?_
      exact Nat.zero_le _


theorem inc_new_random_isOk_iff (g M m : Nat) (r : FloatQ) :
    (∃ s, SqlIncrementalIntervalEnumerator.new_random g M m r = .ok s) ↔
      m ≤ M ∧ M ≤ MAX_DURATION ∧ g ≤ MAX_DURATION := by
  constructor
  · rintro ⟨s, hs⟩
    exact (inc_new_random_ok hs).2
  · intro hc
    refine ⟨{ max_random := (get_random_interval g r).2,
              min_random := (get_random_interval g r).1,
              min_time_interval := m, max_time_interval := M, current := 0 }, ?_⟩
    unfold SqlIncrementalIntervalEnumerator.new_random
    rw [(validate_ok_iff g M m).mpr hc]

theorem exp_new_random_isOk_iff (g M m : Nat) (r : FloatQ) :
    (∃ s, SqlExponentialIntervalEnumerator.new_random g M m r = .ok s) ↔
      m ≤ M ∧ M ≤ MAX_DURATION ∧ g ≤ MAX_DURATION := by
  constructor
  · rintro ⟨s, hs⟩
    exact (exp_new_random_ok hs).2
  · intro hc
    refine ⟨{ internal_counter := 1, max_random := (get_random_interval g r).2,
              min_random := (get_random_interval g r).1,
              min_time_interval := m, max_time_interval := M, current := 0 }, ?_⟩
    unfold SqlExponentialIntervalEnumerator.new_random
    rw [(validate_ok_iff g M m).mpr hc]

theorem inc_new_random_error {g M m : Nat} {r : FloatQ} {e : SqlClientError}
    (h : SqlIncrementalIntervalEnumerator.new_random g M m r = .error e) :
    ∃ p msg, e = .ArgumentOutOfRange p msg := by
  unfold SqlIncrementalIntervalEnumerator.new_random at h
  split at h
  all_goals try exact Except.noConfusion h
  next e2 heq =>
    injection h with h2
    subst h2
    exact validate_error_AOOR g M m e2 heq

theorem exp_new_random_error {g M m : Nat} {r : FloatQ} {e : SqlClientError}
    (h : SqlExponentialIntervalEnumerator.new_random g M m r = .error e) :
    ∃ p msg, e = .ArgumentOutOfRange p msg := by
  unfold SqlExponentialIntervalEnumerator.new_random at h
  split at h
  all_goals try exact Except.noConfusion h
  next e2 heq =>
    injection h with h2
    subst h2
    exact validate_error_AOOR g M m e2 heq

/-- Claim C1: for all durations `gap`, `min`, `max`, the validated
constructors `SqlIncrementalIntervalEnumerator::new(gap, max, min)` and
`SqlExponentialIntervalEnumerator::new(gap, max, min)` return `Ok` if and
only if `min <= max`, `max <= 120s` and `gap <= 120s` (durations are
non-negative by type); on any violation they return an `ArgumentOutOfRange`
error and no enumerator is produced. -/
theorem c1_new_constructors_ok_iff_bounds (g M m : Nat) :
    ((∃ s, SqlIncrementalIntervalEnumerator.new g M m = .ok s) ↔
      m ≤ M ∧ M ≤ MAX_DURATION ∧ g ≤ MAX_DURATION) ∧
    ((∃ s, SqlExponentialIntervalEnumerator.new g M m = .ok s) ↔
      m ≤ M ∧ M ≤ MAX_DURATION ∧ g ≤ MAX_DURATION) ∧
    (∀ e, SqlIncrementalIntervalEnumerator.new g M m = .error e →
      ∃ p msg, e = .ArgumentOutOfRange p msg) ∧
    (∀ e, SqlExponentialIntervalEnumerator.new g M m = .error e →
      ∃ p msg, e = .ArgumentOutOfRange p msg) :=
  ⟨inc_new_random_isOk_iff g M m pt2F, exp_new_random_isOk_iff g M m pt2F,
    fun _ h => inc_new_random_error h, fun _ h => exp_new_random_error h⟩

theorem c1_new_constructors_ok_iff_bounds_witness :
    (∃ s, SqlIncrementalIntervalEnumerator.new (durSecs 1) (durSecs 10) (durSecs 5) = .ok s) ∧
    (∃ s, SqlExponentialIntervalEnumerator.new (durSecs 1) (durSecs 10) (durSecs 5) = .ok s) ∧
    (∃ p msg, (SqlClientError.ArgumentOutOfRange "max_time_interval"
        "max_time_interval must be greater than min_time_interval") =
      .ArgumentOutOfRange p msg) :=
  ⟨(c1_new_constructors_ok_iff_bounds (durSecs 1) (durSecs 10) (durSecs 5)).1.mpr
      (by decide),
    (c1_new_constructors_ok_iff_bounds (durSecs 1) (durSecs 10) (durSecs 5)).2.1.mpr
      (by decide),
    (c1_new_constructors_ok_iff_bounds (durSecs 1) (durSecs 10) (durSecs 50)).2.2.1 _
      rfl⟩

/-- Claim C2: for the exponential enumerator constructed via
`new_random(gap = 1s, max = 20s, min = 5s, randomness = 0.0)` (degenerate
jitter window, every draw equals 1000 ms), the first four `move_next` calls
each return `true` with `current()` equal to 5 s, 8 s, 13 s and 20 s
respectively; the 5th `move_next` call returns `false` and `current()` stays
20 s; after `reset()`, the next `move_next` returns `true` and `current()` is
again 5 s. -/
theorem c2_exponential_degenerate_trace :
    (SqlExponentialIntervalEnumerator.new_random (durSecs 1) (durSecs 20) (durSecs 5)
        zeroF).toOption.map
      (fun s0 => s0.trace [.move 1000, .move 1000, .move 1000, .move 1000, .move 1000,
        .reset, .move 1000]) =
      some [(some true, durSecs 5), (some true, durSecs 8), (some true, durSecs 13),
        (some true, durSecs 20), (some false, durSecs 20), (none, 0),
        (some true, durSecs 5)] := by
  decide

/-- Claim C6: for every enumerator state and draw, whenever a `move_next`
call returns `false`, `current()` after the call equals `current()` before
the call (a rejected candidate is never committed). -/
theorem c6_rejected_candidate_not_committed :
    (∀ (s : SqlIncrementalIntervalEnumerator) (d : Nat), (s.move_next d).1 = false →
      ((s.move_next d).2).currentVal = s.currentVal) ∧
    (∀ (s : SqlExponentialIntervalEnumerator) (d : Nat), (s.move_next d).1 = false →
      ((s.move_next d).2).currentVal = s.currentVal) := by
  constructor
  · intro s d h
    simp only [SqlIncrementalIntervalEnumerator.move_next,
      SqlIncrementalIntervalEnumerator.currentVal] at h ⊢
    split_ifs at h ⊢ <;> simp_all
  · intro s d h
    simp only [SqlExponentialIntervalEnumerator.move_next,
      SqlExponentialIntervalEnumerator.next_interval,
      SqlExponentialIntervalEnumerator.currentVal] at h ⊢
    split_ifs at h ⊢ <;> simp_all

theorem c6_rejected_candidate_not_committed_witness :
    ((SqlIncrementalIntervalEnumerator.move_next
        ⟨5, 5, durSecs 9, durSecs 10, durSecs 10⟩ 7).1 = false) ∧
    (((SqlIncrementalIntervalEnumerator.move_next
        ⟨5, 5, durSecs 9, durSecs 10, durSecs 10⟩ 7).2).currentVal =
      SqlIncrementalIntervalEnumerator.currentVal ⟨5, 5, durSecs 9, durSecs 10, durSecs 10⟩) ∧
    ((SqlExponentialIntervalEnumerator.move_next
        ⟨1, 5, 5, durSecs 9, durSecs 10, durSecs 10⟩ 7).1 = false) ∧
    (((SqlExponentialIntervalEnumerator.move_next
        ⟨1, 5, 5, durSecs 9, durSecs 10, durSecs 10⟩ 7).2).currentVal =
      SqlExponentialIntervalEnumerator.currentVal ⟨1, 5, 5, durSecs 9, durSecs 10, durSecs 10⟩) :=
  ⟨by decide,
    c6_rejected_candidate_not_committed.1 ⟨5, 5, durSecs 9, durSecs 10, durSecs 10⟩ 7 (by decide),
    by decide,
    c6_rejected_candidate_not_committed.2 ⟨1, 5, 5, durSecs 9, durSecs 10, durSecs 10⟩ 7 (by decide)⟩

/-- Claim C9 (implicit invariant): for every Incremental or Exponential
enumerator validly constructed from `(gap, max, min)`, and after every finite
sequence of `move_next` and `reset` calls with arbitrary draw values,
`current() <= max_time_interval` holds. -/
theorem c9_current_bounded_by_max_invariant :
    (∀ (g M m : Nat) (r : FloatQ) (s0 : SqlIncrementalIntervalEnumerator)
        (ops : List RetryOp),
      SqlIncrementalIntervalEnumerator.new_random g M m r = .ok s0 →
      (s0.runOps ops).currentVal ≤ (s0.runOps ops).max_time_interval ∧
        (s0.runOps ops).max_time_interval = M) ∧
    (∀ (g M m : Nat) (r : FloatQ) (s0 : SqlExponentialIntervalEnumerator)
        (ops : List RetryOp),
      SqlExponentialIntervalEnumerator.new_random g M m r = .ok s0 →
      (s0.runOps ops).currentVal ≤ (s0.runOps ops).max_time_interval ∧
        (s0.runOps ops).max_time_interval = M) := by
  constructor
  · intro g M m r s0 ops h
    obtain ⟨hs, _, _, _⟩ := inc_new_random_ok h
    subst hs
    refine ⟨inc_runOps_current_le ops _ (Nat.zero_le _), ?_⟩
    exact (inc_runOps_fields ops _).2.2.2
  · intro g M m r s0 ops h
    obtain ⟨hs, _, _, _⟩ := exp_new_random_ok h
    subst hs
    refine ⟨exp_runOps_current_le ops _ (Nat.zero_le _), ?_⟩
    exact (exp_runOps_fields ops _).2.2.2

theorem c9_current_bounded_by_max_invariant_witness :
    ((SqlIncrementalIntervalEnumerator.runOps ⟨1200, 800, durSecs 5, durSecs 10, 0⟩
        [.move 900, .move 5000, .reset, .move 900]).currentVal ≤
      (SqlIncrementalIntervalEnumerator.runOps ⟨1200, 800, durSecs 5, durSecs 10, 0⟩
        [.move 900, .move 5000, .reset, .move 900]).max_time_interval ∧
      (SqlIncrementalIntervalEnumerator.runOps ⟨1200, 800, durSecs 5, durSecs 10, 0⟩
        [.move 900, .move 5000, .reset, .move 900]).max_time_interval = durSecs 10) ∧
    ((SqlExponentialIntervalEnumerator.runOps ⟨1, 1200, 800, durSecs 5, durSecs 10, 0⟩
        [.move 900, .move 5000, .reset, .move 900]).currentVal ≤
      (SqlExponentialIntervalEnumerator.runOps ⟨1, 1200, 800, durSecs 5, durSecs 10, 0⟩
        [.move 900, .move 5000, .reset, .move 900]).max_time_interval ∧
      (SqlExponentialIntervalEnumerator.runOps ⟨1, 1200, 800, durSecs 5, durSecs 10, 0⟩
        [.move 900, .move 5000, .reset, .move 900]).max_time_interval = durSecs 10) :=
  ⟨c9_current_bounded_by_max_invariant.1 (durSecs 1) (durSecs 10) (durSecs 5) pt2F
      ⟨1200, 800, durSecs 5, durSecs 10, 0⟩ [.move 900, .move 5000, .reset, .move 900] rfl,
    c9_current_bounded_by_max_invariant.2 (durSecs 1) (durSecs 10) (durSecs 5) pt2F
      ⟨1, 1200, 800, durSecs 5, durSecs 10, 0⟩ [.move 900, .move 5000, .reset, .move 900] rfl⟩

end RetryEnumerators

theorem re2_validate_eq : RetryEnumerators2.validate = RetryEnumerators.validate := rfl

theorem re2_get_random_interval_eq :
    RetryEnumerators2.get_random_interval = RetryEnumerators.get_random_interval := rfl

theorem re2_new_random_toRE2 (g M m : Nat) (r : FloatQ) :
    RetryEnumerators2.SqlExponentialIntervalEnumerator.new_random g M m r =
      (RetryEnumerators.SqlExponentialIntervalEnumerator.new_random g M m r).map expToRE2 := by
  unfold RetryEnumerators2.SqlExponentialIntervalEnumerator.new_random
    RetryEnumerators.SqlExponentialIntervalEnumerator.new_random
  rw [re2_validate_eq]
  cases hv : RetryEnumerators.validate g M m with
  | error e => simp [Except.map]
  | ok u => simp [Except.map, expToRE2, re2_get_random_interval_eq]

theorem re2_move_next_toRE2 (s : RetryEnumerators.SqlExponentialIntervalEnumerator)
    (d : Nat) :
    (expToRE2 s).move_next d = ((s.move_next d).1, expToRE2 (s.move_next d).2) := by
  simp only [RetryEnumerators2.SqlExponentialIntervalEnumerator.move_next,
    RetryEnumerators2.SqlExponentialIntervalEnumerator.current_ref,
    RetryEnumerators2.SqlExponentialIntervalEnumerator.max_time_interval_ref,
    RetryEnumerators2.SqlExponentialIntervalEnumerator.set_current,
    RetryEnumerators2.SqlExponentialIntervalEnumerator.next_interval,
    RetryEnumerators2.get_random,
    RetryEnumerators.SqlExponentialIntervalEnumerator.move_next,
    RetryEnumerators.SqlExponentialIntervalEnumerator.next_interval,
    RetryEnumerators.get_random, expToRE2]
  split_ifs <;> rfl

theorem re2_reset_toRE2 (s : RetryEnumerators.SqlExponentialIntervalEnumerator) :
    (expToRE2 s).reset = expToRE2 s.reset := rfl

theorem re2_trace_toRE2 (ops : List RetryOp) :
    ∀ s : RetryEnumerators.SqlExponentialIntervalEnumerator,
      (expToRE2 s).trace ops = s.trace ops := by
  induction ops with
  | nil => intro s; rfl
  | cons op t ih =>
    intro s
    cases op with
    | move d =>
      simp only [RetryEnumerators2.SqlExponentialIntervalEnumerator.trace,
        RetryEnumerators.SqlExponentialIntervalEnumerator.trace]
      rw [re2_move_next_toRE2]
      exact congrArg _ (ih _)
    | reset =>
      simp only [RetryEnumerators2.SqlExponentialIntervalEnumerator.trace,
        RetryEnumerators.SqlExponentialIntervalEnumerator.trace]
      rw [re2_reset_toRE2]
      exact congrArg _ (ih _)

/-- Claim C10 (implicit refinement): for identical constructor arguments and
an identical sequence of draw values, `retry_enumerators::SqlExponentialIntervalEnumerator`
and `retry_enumerators2::SqlExponentialIntervalEnumerator` (whose `move_next`
and `reset` come from the blanket `SqlRetryInterval` impl over
`SqlRetryIntervalInternal`) are observationally equivalent: every
corresponding call to `current`, `move_next` and `reset` returns the same
result and leaves corresponding state. -/
theorem c10_enumerators2_refines_enumerators :
    (∀ (g M m : Nat) (r : FloatQ),
      RetryEnumerators2.SqlExponentialIntervalEnumerator.new_random g M m r =
        (RetryEnumerators.SqlExponentialIntervalEnumerator.new_random g M m r).map
          expToRE2) ∧
    (∀ s : RetryEnumerators.SqlExponentialIntervalEnumerator,
      (expToRE2 s).currentVal = s.currentVal ∧
      (∀ d, ((expToRE2 s).move_next d).1 = (s.move_next d).1 ∧
        ((expToRE2 s).move_next d).2 = expToRE2 (s.move_next d).2) ∧
      (expToRE2 s).reset = expToRE2 s.reset) ∧
    (∀ (s : RetryEnumerators.SqlExponentialIntervalEnumerator) (ops : List RetryOp),
      (expToRE2 s).trace ops = s.trace ops) :=
  ⟨re2_new_random_toRE2,
    fun s => ⟨rfl,
      fun d => ⟨by rw [re2_move_next_toRE2], by rw [re2_move_next_toRE2]⟩,
      re2_reset_toRE2 s⟩,
    fun s ops => re2_trace_toRE2 ops s⟩

/-- Claim C7 (amended): `reset` on the `retry_enumerators` and
`retry_enumerators2` exponential enumerators sets `current` to 0 and
`internal_counter` to 1 and leaves `min_time_interval`, `max_time_interval`
and the jitter window unchanged; the `sql_retry_interval.rs` exponential
enumerator's `reset` sets `internal_counter` to 1 but leaves `current` (and
every other field) unchanged. -/
theorem c7_reset_behavior_all_variants :
    (∀ s : RetryEnumerators.SqlExponentialIntervalEnumerator,
      s.reset.currentVal = 0 ∧ s.reset.internal_counter = 1 ∧
        s.reset.min_time_interval = s.min_time_interval ∧
        s.reset.max_time_interval = s.max_time_interval ∧
        s.reset.min_random = s.min_random ∧ s.reset.max_random = s.max_random) ∧
    (∀ s : RetryEnumerators2.SqlExponentialIntervalEnumerator,
      s.reset.currentVal = 0 ∧ s.reset.internal_counter = 1 ∧
        s.reset.min_time_interval = s.min_time_interval ∧
        s.reset.max_time_interval = s.max_time_interval ∧
        s.reset.min_random = s.min_random ∧ s.reset.max_random = s.max_random) ∧
    (∀ s : SqlRetryIntervalFile.SqlExponentialIntervalEnumerator,
      s.reset.currentVal = s.currentVal ∧ s.reset.internal_counter = 1 ∧
        s.reset.min_time_interval = s.min_time_interval ∧
        s.reset.max_time_interval = s.max_time_interval ∧
        s.reset.min_random = s.min_random ∧ s.reset.max_random = s.max_random ∧
        s.reset.delta_backoff_time = s.delta_backoff_time) :=
  ⟨fun _ => ⟨rfl, rfl, rfl, rfl, rfl, rfl⟩,
    fun _ => ⟨rfl, rfl, rfl, rfl, rfl, rfl⟩,
    fun _ => ⟨rfl, rfl, rfl, rfl, rfl, rfl, rfl⟩⟩

/-- Counterexample to claim C7 as stated: the `sql_retry_interval.rs`
exponential enumerator, in a state reachable from a valid construction
(`new_random(1s, 20s, 5s, 0.0)` followed by one successful `move_next`), has
`current() = 5s` both before and after `reset()`, not 0. -/
theorem c7_sql_retry_interval_reset_keeps_current :
    ((SqlRetryIntervalFile.SqlExponentialIntervalEnumerator.new_random (durSecs 1)
        (durSecs 20) (durSecs 5) zeroF).toOption.map
      (fun s0 => (((s0.move_next 1000).2).reset).currentVal)) = some (durSecs 5) ∧
    durSecs 5 ≠ 0 := by
  exact ⟨by decide, by decide⟩

namespace RetryEnumerators

theorem inc_first_move {s : SqlIncrementalIntervalEnumerator}
    (hcur : s.current = 0) (hm : 1 ≤ s.min_time_interval)
    (hmM : s.min_time_interval ≤ s.max_time_interval) (d : Nat) :
    (s.move_next d).1 = true ∧ ((s.move_next d).2).currentVal = s.min_time_interval := by
  have h1 : s.current < s.max_time_interval := by omega
  have h2 : s.next_interval d = s.min_time_interval := by
    unfold SqlIncrementalIntervalEnumerator.next_interval
    rw [if_pos (by omega)]
  simp only [SqlIncrementalIntervalEnumerator.move_next, h2,
    SqlIncrementalIntervalEnumerator.currentVal]
  rw [if_pos h1, if_pos hmM]
  exact ⟨rfl, rfl⟩

theorem exp_first_candidate (s : SqlExponentialIntervalEnumerator) (d : Nat)
    (hcnt : s.internal_counter = 1) :
    (s.next_interval d).1 = s.min_time_interval := by
  unfold SqlExponentialIntervalEnumerator.next_interval
  rw [hcnt]
  norm_num [U64_MOD, durMillis]

theorem exp_first_move {s : SqlExponentialIntervalEnumerator}
    (hcur : s.current = 0) (hcnt : s.internal_counter = 1)
    (hm : 1 ≤ s.min_time_interval)
    (hmM : s.min_time_interval ≤ s.max_time_interval) (d : Nat) :
    (s.move_next d).1 = true ∧ ((s.move_next d).2).currentVal = s.min_time_interval := by
  have h1 : s.current < s.max_time_interval := by omega
  simp only [SqlExponentialIntervalEnumerator.move_next,
    SqlExponentialIntervalEnumerator.currentVal]
  rw [if_pos h1]
  rw [exp_first_candidate s d hcnt]
  rw [if_pos hmM]
  exact ⟨rfl, rfl⟩

theorem inc_move_next_stuck {s : SqlIncrementalIntervalEnumerator}
    (h : ¬ s.current < s.max_time_interval) (d : Nat) : s.move_next d = (false, s) := by
  unfold SqlIncrementalIntervalEnumerator.move_next
  rw [if_neg h]

theorem exp_move_next_stuck {s : SqlExponentialIntervalEnumerator}
    (h : ¬ s.current < s.max_time_interval) (d : Nat) : s.move_next d = (false, s) := by
  unfold SqlExponentialIntervalEnumerator.move_next
  rw [if_neg h]

/-- Claim C5 (amended): for every Incremental or Exponential enumerator
validly constructed from `(gap, max, min)` with `0 < min`, the first
`move_next` call after construction, and the first `move_next` call after any
`reset()`, returns `true` and sets `current()` to exactly `min`; in the
boundary configuration `min = max = 0` (for any valid `gap`) every
`move_next` call instead returns `false` and leaves the state unchanged. -/
theorem c5_first_move_next_yields_min :
    (∀ (g M m : Nat) (r : FloatQ) (s0 : SqlIncrementalIntervalEnumerator),
      SqlIncrementalIntervalEnumerator.new_random g M m r = .ok s0 → 1 ≤ m →
      (∀ d, (s0.move_next d).1 = true ∧ ((s0.move_next d).2).currentVal = m) ∧
      (∀ ops d, (((s0.runOps ops).reset).move_next d).1 = true ∧
        ((((s0.runOps ops).reset).move_next d).2).currentVal = m)) ∧
    (∀ (g M m : Nat) (r : FloatQ) (s0 : SqlExponentialIntervalEnumerator),
      SqlExponentialIntervalEnumerator.new_random g M m r = .ok s0 → 1 ≤ m →
      (∀ d, (s0.move_next d).1 = true ∧ ((s0.move_next d).2).currentVal = m) ∧
      (∀ ops d, (((s0.runOps ops).reset).move_next d).1 = true ∧
        ((((s0.runOps ops).reset).move_next d).2).currentVal = m)) ∧
    (∀ (g : Nat) (r : FloatQ) (t0 : SqlIncrementalIntervalEnumerator),
      SqlIncrementalIntervalEnumerator.new_random g 0 0 r = .ok t0 →
      ∀ d, t0.move_next d = (false, t0)) ∧
    (∀ (g : Nat) (r : FloatQ) (t0 : SqlExponentialIntervalEnumerator),
      SqlExponentialIntervalEnumerator.new_random g 0 0 r = .ok t0 →
      ∀ d, t0.move_next d = (false, t0)) := by
  refine ⟨?_, ?_, ?_, ?_⟩
  · intro g M m r s0 h hm
    obtain ⟨hs, hmM, _, _⟩ := inc_new_random_ok h
    constructor
    · intro d
      have := inc_first_move (s := s0) (by rw [hs]) (by rw [hs]; exact hm)
        (by rw [hs]; exact hmM) d
      rw [hs] at this ⊢
      exact this
    · intro ops d
      obtain ⟨f1, f2, f3, f4⟩ := inc_runOps_fields ops s0
      have hmin : ((s0.runOps ops).reset).min_time_interval = m := by
        have e1 : ((s0.runOps ops).reset).min_time_interval =
            (s0.runOps ops).min_time_interval := rfl
        rw [e1, f3, hs]
      have hmax : ((s0.runOps ops).reset).max_time_interval = M := by
        have e1 : ((s0.runOps ops).reset).max_time_interval =
            (s0.runOps ops).max_time_interval := rfl
        rw [e1, f4, hs]
      have := inc_first_move (s := (s0.runOps ops).reset) rfl
        (by rw [hmin]; exact hm) (by rw [hmin, hmax]; exact hmM) d
      rw [hmin] at this
      exact this
  · intro g M m r s0 h hm
    obtain ⟨hs, hmM, _, _⟩ := exp_new_random_ok h
    constructor
    · intro d
      have := exp_first_move (s := s0) (by rw [hs]) (by rw [hs]) (by rw [hs]; exact hm)
        (by rw [hs]; exact hmM) d
      rw [hs] at this ⊢
      exact this
    · intro ops d
      obtain ⟨f1, f2, f3, f4⟩ := exp_runOps_fields ops s0
      have hmin : ((s0.runOps ops).reset).min_time_interval = m := by
        have e1 : ((s0.runOps ops).reset).min_time_interval =
            (s0.runOps ops).min_time_interval := rfl
        rw [e1, f3, hs]
      have hmax : ((s0.runOps ops).reset).max_time_interval = M := by
        have e1 : ((s0.runOps ops).reset).max_time_interval =
            (s0.runOps ops).max_time_interval := rfl
        rw [e1, f4, hs]
      have := exp_first_move (s := (s0.runOps ops).reset) rfl rfl
        (by rw [hmin]; exact hm) (by rw [hmin, hmax]; exact hmM) d
      rw [hmin] at this
      exact this
  · intro g r t0 h d
    obtain ⟨hs, _, _, _⟩ := inc_new_random_ok h
    refine inc_move_next_stuck ?_ d
    rw [hs]
    simp
  · intro g r t0 h d
    obtain ⟨hs, _, _, _⟩ := exp_new_random_ok h
    refine exp_move_next_stuck ?_ d
    rw [hs]
    simp

theorem c5_first_move_next_yields_min_witness :
    ((SqlIncrementalIntervalEnumerator.move_next ⟨1200, 800, durSecs 5, durSecs 10, 0⟩
        900).1 = true ∧
      ((SqlIncrementalIntervalEnumerator.move_next ⟨1200, 800, durSecs 5, durSecs 10, 0⟩
        900).2).currentVal = durSecs 5) ∧
    ((SqlExponentialIntervalEnumerator.move_next ⟨1, 1200, 800, durSecs 5, durSecs 10, 0⟩
        900).1 = true ∧
      ((SqlExponentialIntervalEnumerator.move_next ⟨1, 1200, 800, durSecs 5, durSecs 10, 0⟩
        900).2).currentVal = durSecs 5) ∧
    (SqlIncrementalIntervalEnumerator.move_next ⟨1200, 800, 0, 0, 0⟩ 900 =
      (false, ⟨1200, 800, 0, 0, 0⟩)) ∧
    (SqlExponentialIntervalEnumerator.move_next ⟨1, 1200, 800, 0, 0, 0⟩ 900 =
      (false, ⟨1, 1200, 800, 0, 0, 0⟩)) :=
  ⟨((c5_first_move_next_yields_min.1 (durSecs 1) (durSecs 10) (durSecs 5) pt2F
      ⟨1200, 800, durSecs 5, durSecs 10, 0⟩ rfl (by decide)).1 900),
    ((c5_first_move_next_yields_min.2.1 (durSecs 1) (durSecs 10) (durSecs 5) pt2F
      ⟨1, 1200, 800, durSecs 5, durSecs 10, 0⟩ rfl (by decide)).1 900),
    (c5_first_move_next_yields_min.2.2.1 (durSecs 1) pt2F ⟨1200, 800, 0, 0, 0⟩ rfl 900),
    (c5_first_move_next_yields_min.2.2.2 (durSecs 1) pt2F ⟨1, 1200, 800, 0, 0, 0⟩ rfl 900)⟩

/-- Counterexample to claim C5 as stated: in the boundary configuration
`min = max = 0` (explicitly included by the claim) the first `move_next` call
after construction returns `false`, not `true`, for both enumerators. -/
theorem c5_boundary_first_move_next_false :
    ((SqlIncrementalIntervalEnumerator.new_random 0 0 0 zeroF).toOption.map
      (fun s0 => (s0.move_next 5).1)) = some false ∧
    ((SqlExponentialIntervalEnumerator.new_random 0 0 0 zeroF).toOption.map
      (fun s0 => (s0.move_next 5).1)) = some false := by
  exact ⟨by decide, by decide⟩

theorem inc_next_interval_ge (s : SqlIncrementalIntervalEnumerator) (d : Nat) :
    s.current ≤ s.next_interval d := by
  unfold SqlIncrementalIntervalEnumerator.next_interval
  split
  · omega
  · exact Nat.le_add_right _ _

theorem inc_move_next_cases (s : SqlIncrementalIntervalEnumerator) (d : Nat) :
    ((s.move_next d).1 = false ∧ (s.move_next d).2 = s) ∨
      ((s.move_next d).1 = true ∧ s.current ≤ ((s.move_next d).2).current) := by
  simp only [SqlIncrementalIntervalEnumerator.move_next]
  split_ifs with h1 h2
  · right
    exact ⟨rfl, by simpa using inc_next_interval_ge s d⟩
  · left
    exact ⟨rfl, rfl⟩
  · left
    exact ⟨rfl, rfl⟩

theorem inc_success_chain :
    ∀ (draws : List Nat) (s : SqlIncrementalIntervalEnumerator),
      nondecreasing (s.current :: s.successCurrents draws) = true := by
  intro draws
  induction draws with
  | nil => intro s; rfl
  | cons d t ih =>
    intro s
    simp only [SqlIncrementalIntervalEnumerator.successCurrents]
    rcases inc_move_next_cases s d with ⟨hf, hst⟩ | ⟨ht, hle⟩
    · rw [hf]
      simp only [Bool.false_eq_true, if_false, hst]
      exact ih s
    · rw [ht]
      simp only [if_true]
      exact nondecreasing_cons_cons hle (ih _)

theorem u64_wrap_sub_one {x : Nat} (h1 : 1 ≤ x) (h2 : x < U64_MOD) :
    (x % U64_MOD + (U64_MOD - 1)) % U64_MOD = x - 1 := by
  rw [Nat.mod_eq_of_lt h2]
  have hU : 1 ≤ U64_MOD := by norm_num [U64_MOD]
  have e : x + (U64_MOD - 1) = (x - 1) + U64_MOD := by omega
  rw [e, Nat.add_mod_right, Nat.mod_eq_of_lt (by omega)]

theorem exp_counter_lt_of_sq {c : Nat} (h : c ^ 2 < U64_MOD) : c + 1 < U64_MOD := by
  have hc32 : c < 4294967296 := by
    by_contra hcon
    push_neg at hcon
    have h2 := Nat.mul_le_mul hcon hcon
    rw [Nat.pow_two] at h
    norm_num [U64_MOD] at h
    omega
  norm_num [U64_MOD]
  omega

theorem exp_next_interval_deg {s : SqlExponentialIntervalEnumerator} (d : Nat)
    (hdeg : s.max_random = s.min_random) (hc : 1 ≤ s.internal_counter)
    (hw : 1 ≤ s.min_random)
    (hb : s.internal_counter ^ 2 * s.min_random < U64_MOD) :
    s.next_interval d =
      (s.min_time_interval + durMillis ((s.internal_counter ^ 2 - 1) * s.min_random),
        { s with internal_counter := s.internal_counter + 1 }) := by
  have hb2 : s.internal_counter ^ 2 < U64_MOD :=
    lt_of_le_of_lt (Nat.le_mul_of_pos_right _ hw) hb
  have hone : 1 ≤ s.internal_counter ^ 2 := by
    have := Nat.pow_le_pow_left hc 2
    simpa using this
  have hdelta : (s.internal_counter ^ 2 - 1) * s.min_random < U64_MOD :=
    lt_of_le_of_lt (Nat.mul_le_mul_right _ (Nat.sub_le _ _)) hb
  have hc1 : s.internal_counter + 1 < U64_MOD := exp_counter_lt_of_sq hb2
  unfold SqlExponentialIntervalEnumerator.next_interval get_random
  rw [if_pos hdeg]
  dsimp only
  rw [u64_wrap_sub_one hone hb2, Nat.mod_eq_of_lt hdelta, Nat.mod_eq_of_lt hc1]

theorem exp_next_interval_zero {s : SqlExponentialIntervalEnumerator} (d : Nat)
    (hdeg : s.max_random = s.min_random) (h0 : s.min_random = 0) :
    s.next_interval d =
      (s.min_time_interval,
        { s with internal_counter := (s.internal_counter + 1) % U64_MOD }) := by
  unfold SqlExponentialIntervalEnumerator.next_interval get_random
  rw [if_pos hdeg, h0]
  dsimp only
  rw [Nat.mul_zero, Nat.zero_mod]
  simp [durMillis]

theorem exp_move_next_eq {s : SqlExponentialIntervalEnumerator} {d q : Nat}
    {s1 : SqlExponentialIntervalEnumerator} (hni : s.next_interval d = (q, s1)) :
    s.move_next d =
      if s.current < s.max_time_interval then
        (if q ≤ s.max_time_interval then (true, { s1 with current := q })
          else (false, s1))
      else (false, s) := by
  unfold SqlExponentialIntervalEnumerator.move_next
  rw [hni]

theorem exp_successCurrents_cons_true {s s2 : SqlExponentialIntervalEnumerator}
    {d : Nat} (h : s.move_next d = (true, s2)) (t : List Nat) :
    s.successCurrents (d :: t) = s2.current :: s2.successCurrents t := by
  simp only [SqlExponentialIntervalEnumerator.successCurrents]
  rw [h]
  simp

theorem exp_successCurrents_cons_false {s s2 : SqlExponentialIntervalEnumerator}
    {d : Nat} (h : s.move_next d = (false, s2)) (t : List Nat) :
    s.successCurrents (d :: t) = s2.successCurrents t := by
  simp only [SqlExponentialIntervalEnumerator.successCurrents]
  rw [h]
  simp

theorem exp_deg_chain_zero :
    ∀ (draws : List Nat) (s : SqlExponentialIntervalEnumerator),
      s.max_random = s.min_random → s.min_random = 0 →
      s.current ≤ s.min_time_interval →
      nondecreasing (s.current :: s.successCurrents draws) = true := by
  intro draws
  induction draws with
  | nil => intro s _ _ _; rfl
  | cons d t ih =>
    intro s hdeg h0 hcur
    have hmv := exp_move_next_eq (exp_next_interval_zero d hdeg h0)
    by_cases h1 : s.current < s.max_time_interval
    · by_cases h2 : s.min_time_interval ≤ s.max_time_interval
      · have hmv2 : s.move_next d =
            (true, { s with
                internal_counter := (s.internal_counter + 1) % U64_MOD,
                current := s.min_time_interval }) := by
          rw [hmv, if_pos h1, if_pos h2]
        rw [exp_successCurrents_cons_true hmv2]
        refine nondecreasing_cons_cons hcur ?_
        exact ih { s with
            internal_counter := (s.internal_counter + 1) % U64_MOD,
            current := s.min_time_interval } hdeg h0 (le_refl _)
      · have hmv2 : s.move_next d =
            (false, { s with internal_counter := (s.internal_counter + 1) % U64_MOD }) := by
          rw [hmv, if_pos h1, if_neg h2]
        rw [exp_successCurrents_cons_false hmv2]
        exact ih { s with
            internal_counter := (s.internal_counter + 1) % U64_MOD } hdeg h0 hcur
    · have hmv2 : s.move_next d = (false, s) := by rw [hmv, if_neg h1]
      rw [exp_successCurrents_cons_false hmv2]
      exact ih s hdeg h0 hcur

theorem exp_deg_chain_pos :
    ∀ (draws : List Nat) (s : SqlExponentialIntervalEnumerator),
      s.max_random = s.min_random → 1 ≤ s.min_random → 1 ≤ s.internal_counter →
      (s.internal_counter + draws.length) ^ 2 * s.min_random < U64_MOD →
      (s.current = 0 ∨ ∃ c0, 1 ≤ c0 ∧ c0 < s.internal_counter ∧
        s.current = s.min_time_interval + durMillis ((c0 ^ 2 - 1) * s.min_random)) →
      nondecreasing (s.current :: s.successCurrents draws) = true := by
  intro draws
  induction draws with
  | nil => intro s _ _ _ _ _; rfl
  | cons d t ih =>
    intro s hdeg hw hc hb hinv
    have hble : s.internal_counter ^ 2 * s.min_random < U64_MOD := by
      refine lt_of_le_of_lt ?_ hb
      exact Nat.mul_le_mul_right _ (Nat.pow_le_pow_left (Nat.le_add_right _ _) 2)
    have hni := exp_next_interval_deg d hdeg hc hw hble
    have hlen : s.internal_counter + 1 + t.length = s.internal_counter + (d :: t).length := by
      simp [List.length]
      omega
    have hmv := exp_move_next_eq hni
    by_cases h1 : s.current < s.max_time_interval
    · by_cases h2 : s.min_time_interval + durMillis ((s.internal_counter ^ 2 - 1) *
          s.min_random) ≤ s.max_time_interval
      · have hmv2 : s.move_next d =
            (true, { s with
                internal_counter := s.internal_counter + 1,
                current := s.min_time_interval +
                  durMillis ((s.internal_counter ^ 2 - 1) * s.min_random) }) := by
          rw [hmv, if_pos h1, if_pos h2]
        rw [exp_successCurrents_cons_true hmv2]
        refine nondecreasing_cons_cons ?_ ?_
        · rcases hinv with hz | ⟨c0, hc0, hlt, he⟩
          · rw [hz]
            exact Nat.zero_le _
          · rw [he]
            refine Nat.add_le_add_left ?_ _
            refine Nat.mul_le_mul_right _ ?_
            exact Nat.mul_le_mul_right _
              (Nat.sub_le_sub_right (Nat.pow_le_pow_left (Nat.le_of_lt hlt) 2) 1)
        · refine ih { s with
              internal_counter := s.internal_counter + 1,
              current := s.min_time_interval +
                durMillis ((s.internal_counter ^ 2 - 1) * s.min_random) } hdeg hw
            (show 1 ≤ s.internal_counter + 1 by omega) ?_ ?_
          · show (s.internal_counter + 1 + t.length) ^ 2 * s.min_random < U64_MOD
            rw [hlen]
            exact hb
          · right
            exact ⟨s.internal_counter, hc,
              show s.internal_counter < s.internal_counter + 1 by omega, rfl⟩
      · have hmv2 : s.move_next d =
            (false, { s with internal_counter := s.internal_counter + 1 }) := by
          rw [hmv, if_pos h1, if_neg h2]
        rw [exp_successCurrents_cons_false hmv2]
        refine ih { s with internal_counter := s.internal_counter + 1 } hdeg hw
          (show 1 ≤ s.internal_counter + 1 by omega) ?_ ?_
        · show (s.internal_counter + 1 + t.length) ^ 2 * s.min_random < U64_MOD
          rw [hlen]
          exact hb
        · rcases hinv with hz | ⟨c0, hc0, hlt, he⟩
          · exact Or.inl hz
          · exact Or.inr ⟨c0, hc0, Nat.lt_succ_of_lt hlt, he⟩
    · have hmv2 : s.move_next d = (false, s) := by rw [hmv, if_neg h1]
      rw [exp_successCurrents_cons_false hmv2]
      refine ih s hdeg hw hc ?_ hinv
      refine lt_of_le_of_lt ?_ hb
      refine Nat.mul_le_mul_right _ (Nat.pow_le_pow_left ?_ 2)
      simp only [List.length_cons]
      omega

/-- Claim C3 (amended): for every Incremental enumerator and every draw
sequence, the `current()` values observed after each successful `move_next`
are non-decreasing; for a validly constructed Exponential enumerator this
holds when every draw yields the same value — i.e. when the jitter window is
degenerate (`max_random = min_random`) — provided the `u64` step-counter
arithmetic does not overflow during the run; with varying draws inside a
non-degenerate window the exponential sequence can decrease. -/
theorem c3_successful_currents_monotonicity :
    (∀ (s : SqlIncrementalIntervalEnumerator) (draws : List Nat),
      nondecreasing (s.successCurrents draws) = true) ∧
    (∀ (g M m : Nat) (r : FloatQ) (s0 : SqlExponentialIntervalEnumerator)
        (draws : List Nat),
      SqlExponentialIntervalEnumerator.new_random g M m r = .ok s0 →
      s0.max_random = s0.min_random →
      (1 + draws.length) ^ 2 * s0.min_random < U64_MOD →
      nondecreasing (s0.successCurrents draws) = true) := by
  constructor
  · intro s draws
    exact nondecreasing_tail (inc_success_chain draws s)
  · intro g M m r s0 draws h hdeg hb
    obtain ⟨hs, _, _, _⟩ := exp_new_random_ok h
    have hcnt : s0.internal_counter = 1 := by rw [hs]
    have hcur : s0.current = 0 := by rw [hs]
    rcases Nat.eq_zero_or_pos s0.min_random with hw | hw
    · exact nondecreasing_tail
        (exp_deg_chain_zero draws s0 hdeg hw (by rw [hcur]; exact Nat.zero_le _))
    · refine nondecreasing_tail
        (exp_deg_chain_pos draws s0 hdeg hw (by rw [hcnt]) ?_ (Or.inl hcur))
      rw [hcnt]
      exact hb

theorem c3_successful_currents_monotonicity_witness :
    nondecreasing (SqlIncrementalIntervalEnumerator.successCurrents
      ⟨1200, 800, durSecs 5, durSecs 10, 0⟩ [900, 1100, 800]) = true ∧
    nondecreasing (SqlExponentialIntervalEnumerator.successCurrents
      ⟨1, 1000, 1000, durSecs 5, durSecs 20, 0⟩ [1000, 1000, 1000]) = true :=
  ⟨c3_successful_currents_monotonicity.1 ⟨1200, 800, durSecs 5, durSecs 10, 0⟩ [900, 1100, 800],
    c3_successful_currents_monotonicity.2 (durSecs 1) (durSecs 20) (durSecs 5) zeroF
      ⟨1, 1000, 1000, durSecs 5, durSecs 20, 0⟩ [1000, 1000, 1000] rfl rfl (by decide)⟩

/-- Counterexample to claim C3 as stated: the Exponential enumerator
constructed by `new(gap = 1s, max = 29s, min = 0)` has jitter window
`[800, 1200)`; with the draw sequence 800, 800, 800, 800, 1199, 800 (all
inside the window) every `move_next` succeeds and the observed `current()`
values end with 28776 ms followed by 28000 ms — a decrease. -/
theorem c3_exponential_currents_can_decrease :
    ((SqlExponentialIntervalEnumerator.new (durSecs 1) (durMillis 29000) 0).toOption.map
      (fun s0 => (s0.min_random, s0.max_random,
        s0.successCurrents [800, 800, 800, 800, 1199, 800],
        nondecreasing (s0.successCurrents [800, 800, 800, 800, 1199, 800])))) =
      some (800, 1200, [0, durMillis 2400, durMillis 6400, durMillis 12000,
        durMillis 28776, durMillis 28000], false) ∧
    (800 ≤ 1199 ∧ 1199 < 1200) ∧ (800 ≤ 800 ∧ 800 < 1200) := by
  exact ⟨by decide, by decide, by decide⟩

theorem inc_moveResults_cons (s : SqlIncrementalIntervalEnumerator) (d : Nat)
    (t : List Nat) :
    s.moveResults (d :: t) = (s.move_next d).1 :: ((s.move_next d).2).moveResults t := by
  simp only [SqlIncrementalIntervalEnumerator.moveResults]

theorem exp_moveResults_cons (s : SqlExponentialIntervalEnumerator) (d : Nat)
    (t : List Nat) :
    s.moveResults (d :: t) = (s.move_next d).1 :: ((s.move_next d).2).moveResults t := by
  simp only [SqlExponentialIntervalEnumerator.moveResults]

theorem inc_next_interval_deg {s : SqlIncrementalIntervalEnumerator}
    (hdeg : s.max_random = s.min_random) (d : Nat) :
    s.next_interval d =
      if s.current < s.min_time_interval then s.min_time_interval
      else s.current + durMillis s.min_random := by
  unfold SqlIncrementalIntervalEnumerator.next_interval get_random
  rw [if_pos hdeg]

theorem inc_deg_false_forever :
    ∀ (draws : List Nat) (s : SqlIncrementalIntervalEnumerator) (d0 : Nat),
      s.max_random = s.min_random → (s.move_next d0).1 = false →
      s.moveResults draws = List.replicate draws.length false := by
  intro draws
  induction draws with
  | nil => intro s d0 _ _; rfl
  | cons d t ih =>
    intro s d0 hdeg hf
    have hst : (s.move_next d0).2 = s := by
      rcases inc_move_next_cases s d0 with ⟨_, h2⟩ | ⟨ht, _⟩
      · exact h2
      · rw [ht] at hf
        exact absurd hf (by simp)
    have hsame : s.move_next d = s.move_next d0 := by
      unfold SqlIncrementalIntervalEnumerator.move_next
      rw [inc_next_interval_deg hdeg d, inc_next_interval_deg hdeg d0]
    rw [inc_moveResults_cons, hsame, hf, hst, List.length_cons, List.replicate_succ]
    exact congrArg _ (ih s d0 hdeg hf)

theorem exp_stuck :
    ∀ (draws : List Nat) (s : SqlExponentialIntervalEnumerator),
      ¬ s.current < s.max_time_interval →
      s.moveResults draws = List.replicate draws.length false := by
  intro draws
  induction draws with
  | nil => intro s _; rfl
  | cons d t ih =>
    intro s h
    rw [exp_moveResults_cons, exp_move_next_stuck h d, List.length_cons,
      List.replicate_succ]
    exact congrArg _ (ih s h)

theorem exp_reject_perm_zero :
    ∀ (draws : List Nat) (s : SqlExponentialIntervalEnumerator),
      s.max_random = s.min_random → s.min_random = 0 →
      s.max_time_interval < s.min_time_interval →
      s.moveResults draws = List.replicate draws.length false := by
  intro draws
  induction draws with
  | nil => intro s _ _ _; rfl
  | cons d t ih =>
    intro s hdeg h0 hMm
    have hmv := exp_move_next_eq (exp_next_interval_zero d hdeg h0)
    by_cases h1 : s.current < s.max_time_interval
    · have hmv2 : s.move_next d =
          (false, { s with internal_counter := (s.internal_counter + 1) % U64_MOD }) := by
        rw [hmv, if_pos h1, if_neg (Nat.not_le.mpr hMm)]
      rw [exp_moveResults_cons, hmv2, List.length_cons, List.replicate_succ]
      exact congrArg _
        (ih { s with internal_counter := (s.internal_counter + 1) % U64_MOD } hdeg h0 hMm)
    · rw [exp_moveResults_cons, exp_move_next_stuck h1 d, List.length_cons,
        List.replicate_succ]
      exact congrArg _ (ih s hdeg h0 hMm)

theorem exp_reject_perm_pos :
    ∀ (draws : List Nat) (s : SqlExponentialIntervalEnumerator),
      s.max_random = s.min_random → 1 ≤ s.min_random → 1 ≤ s.internal_counter →
      (s.internal_counter + draws.length) ^ 2 * s.min_random < U64_MOD →
      s.max_time_interval <
        s.min_time_interval + durMillis ((s.internal_counter ^ 2 - 1) * s.min_random) →
      s.moveResults draws = List.replicate draws.length false := by
  intro draws
  induction draws with
  | nil => intro s _ _ _ _ _; rfl
  | cons d t ih =>
    intro s hdeg hw hc hb hcand
    have hble : s.internal_counter ^ 2 * s.min_random < U64_MOD := by
      refine lt_of_le_of_lt ?_ hb
      exact Nat.mul_le_mul_right _ (Nat.pow_le_pow_left (Nat.le_add_right _ _) 2)
    have hni := exp_next_interval_deg d hdeg hc hw hble
    have hmv := exp_move_next_eq hni
    have hlen : s.internal_counter + 1 + t.length = s.internal_counter + (d :: t).length := by
      simp only [List.length_cons]
      omega
    by_cases h1 : s.current < s.max_time_interval
    · have hmv2 : s.move_next d =
          (false, { s with internal_counter := s.internal_counter + 1 }) := by
        rw [hmv, if_pos h1, if_neg (Nat.not_le.mpr hcand)]
      rw [exp_moveResults_cons, hmv2, List.length_cons, List.replicate_succ]
      refine congrArg _
        (ih { s with internal_counter := s.internal_counter + 1 } hdeg hw
          (show 1 ≤ s.internal_counter + 1 by omega) ?_ ?_)
      · show (s.internal_counter + 1 + t.length) ^ 2 * s.min_random < U64_MOD
        rw [hlen]
        exact hb
      · show s.max_time_interval <
          s.min_time_interval + durMillis (((s.internal_counter + 1) ^ 2 - 1) * s.min_random)
        refine lt_of_lt_of_le hcand (Nat.add_le_add_left ?_ _)
        refine Nat.mul_le_mul_right _ ?_
        exact Nat.mul_le_mul_right _
          (Nat.sub_le_sub_right (Nat.pow_le_pow_left (Nat.le_succ _) 2) 1)
    · rw [exp_moveResults_cons, exp_move_next_stuck h1 d, List.length_cons,
        List.replicate_succ]
      refine congrArg _ (ih s hdeg hw hc ?_ hcand)
      refine lt_of_le_of_lt ?_ hb
      refine Nat.mul_le_mul_right _ (Nat.pow_le_pow_left ?_ 2)
      simp only [List.length_cons]
      omega

theorem exp_move_next_counter (s : SqlExponentialIntervalEnumerator) (d : Nat) :
    ((s.move_next d).2).internal_counter = s.internal_counter ∨
      ((s.move_next d).2).internal_counter = (s.internal_counter + 1) % U64_MOD := by
  simp only [SqlExponentialIntervalEnumerator.move_next,
    SqlExponentialIntervalEnumerator.next_interval]
  split_ifs <;> simp

theorem exp_runOps_counter_le :
    ∀ (ops : List RetryOp) (s : SqlExponentialIntervalEnumerator),
      1 ≤ s.internal_counter → s.internal_counter + ops.length < U64_MOD →
      1 ≤ (s.runOps ops).internal_counter ∧
        (s.runOps ops).internal_counter ≤ s.internal_counter + ops.length := by
  intro ops
  induction ops with
  | nil => intro s h1 _; exact ⟨h1, Nat.le_add_right _ _⟩
  | cons op t ih =>
    intro s h1 hb
    cases op with
    | move d =>
      have hlt : s.internal_counter + 1 < U64_MOD := by
        simp only [List.length_cons] at hb
        omega
      have hcnt : ((s.move_next d).2).internal_counter = s.internal_counter ∨
          ((s.move_next d).2).internal_counter = s.internal_counter + 1 := by
        rcases exp_move_next_counter s d with h | h
        · exact Or.inl h
        · right
          rw [h, Nat.mod_eq_of_lt hlt]
      have h1' : 1 ≤ ((s.move_next d).2).internal_counter := by
        rcases hcnt with h | h <;> omega
      have hb' : ((s.move_next d).2).internal_counter + t.length < U64_MOD := by
        simp only [List.length_cons] at hb
        rcases hcnt with h | h <;> omega
      obtain ⟨c1, c2⟩ := ih ((s.move_next d).2) h1' hb'
      refine ⟨c1, ?_⟩
      show (((s.move_next d).2).runOps t).internal_counter ≤
        s.internal_counter + (RetryOp.move d :: t).length
      simp only [List.length_cons]
      rcases hcnt with h | h <;> omega
    | reset =>
      have h1r : (1 : Nat) ≤ (s.reset).internal_counter := le_refl _
      have hbr : (s.reset).internal_counter + t.length < U64_MOD := by
        show 1 + t.length < U64_MOD
        simp only [List.length_cons] at hb
        omega
      obtain ⟨c1, c2⟩ := ih s.reset h1r hbr
      refine ⟨c1, ?_⟩
      show ((s.reset).runOps t).internal_counter ≤
        s.internal_counter + (RetryOp.reset :: t).length
      simp only [List.length_cons]
      have hr1 : (s.reset).internal_counter = 1 := rfl
      omega

/-- Claim C4 (amended): for the Incremental enumerator with a degenerate
jitter window (every draw yields the same value), once a `move_next` call has
returned `false`, every subsequent `move_next` call with no intervening
`reset` also returns `false`; the same holds for the Exponential enumerator
provided the `u64` step-counter arithmetic cannot overflow during the run.
With varying draws inside a non-degenerate window, a `move_next` call after a
`false` one can return `true` again (see the counterexample), so exhaustion
is not permanent in general. -/
theorem c4_exhaustion_permanent_degenerate :
    (∀ (g M m : Nat) (r : FloatQ) (s0 : SqlIncrementalIntervalEnumerator)
        (ops : List RetryOp) (d0 : Nat) (draws : List Nat),
      SqlIncrementalIntervalEnumerator.new_random g M m r = .ok s0 →
      s0.max_random = s0.min_random →
      ((s0.runOps ops).move_next d0).1 = false →
      (((s0.runOps ops).move_next d0).2).moveResults draws =
        List.replicate draws.length false) ∧
    (∀ (g M m : Nat) (r : FloatQ) (s0 : SqlExponentialIntervalEnumerator)
        (ops : List RetryOp) (d0 : Nat) (draws : List Nat),
      SqlExponentialIntervalEnumerator.new_random g M m r = .ok s0 →
      s0.max_random = s0.min_random →
      (2 + ops.length + draws.length) ^ 2 * s0.min_random < U64_MOD →
      ((s0.runOps ops).move_next d0).1 = false →
      (((s0.runOps ops).move_next d0).2).moveResults draws =
        List.replicate draws.length false) := by
  constructor
  · intro g M m r s0 ops d0 draws h hdeg hf
    have hdegR : (s0.runOps ops).max_random = (s0.runOps ops).min_random := by
      obtain ⟨f1, f2, _, _⟩ := inc_runOps_fields ops s0
      rw [f1, f2, hdeg]
    have hst : ((s0.runOps ops).move_next d0).2 = s0.runOps ops := by
      rcases inc_move_next_cases (s0.runOps ops) d0 with ⟨_, h2⟩ | ⟨ht, _⟩
      · exact h2
      · rw [ht] at hf
        exact absurd hf (by simp)
    rw [hst]
    exact inc_deg_false_forever draws (s0.runOps ops) d0 hdegR hf
  · intro g M m r s0 ops d0 draws h hdeg hb hf
    obtain ⟨hs, hmM, _, _⟩ := exp_new_random_ok h
    have hcnt0 : s0.internal_counter = 1 := by rw [hs]
    obtain ⟨f1, f2, f3, f4⟩ := exp_runOps_fields ops s0
    have hdegR : (s0.runOps ops).max_random = (s0.runOps ops).min_random := by
      rw [f1, f2, hdeg]
    rcases Nat.eq_zero_or_pos s0.min_random with hw | hw
    · -- degenerate window of width zero: the candidate is always `min`
      by_cases h1 : (s0.runOps ops).current < (s0.runOps ops).max_time_interval
      · have h0R : (s0.runOps ops).min_random = 0 := by rw [f1, hw]
        have hmv := exp_move_next_eq (exp_next_interval_zero d0 hdegR h0R)
        by_cases h2 : (s0.runOps ops).min_time_interval ≤ (s0.runOps ops).max_time_interval
        · rw [hmv, if_pos h1, if_pos h2] at hf
          exact absurd hf (by simp)
        · have hmv2 : (s0.runOps ops).move_next d0 =
              (false, { s0.runOps ops with
                internal_counter := ((s0.runOps ops).internal_counter + 1) % U64_MOD }) := by
            rw [hmv, if_pos h1, if_neg h2]
          rw [hmv2]
          exact exp_reject_perm_zero draws _ hdegR h0R (Nat.not_le.mp h2)
      · have hst : ((s0.runOps ops).move_next d0).2 = s0.runOps ops :=
          congrArg Prod.snd (exp_move_next_stuck h1 d0)
        rw [hst]
        exact exp_stuck draws _ h1
    · -- degenerate window of positive width
      have hwU : 1 ≤ s0.min_random := hw
      have hsq : 2 + ops.length + draws.length < 4294967296 := by
        by_contra hcon
        push_neg at hcon
        have h2 := Nat.mul_le_mul hcon hcon
        have h3 : (2 + ops.length + draws.length) ^ 2 * s0.min_random <
            2 ^ 64 := hb
        rw [Nat.pow_two] at h3
        have h4 : (2 + ops.length + draws.length) * (2 + ops.length + draws.length) ≤
            (2 + ops.length + draws.length) * (2 + ops.length + draws.length) *
              s0.min_random := Nat.le_mul_of_pos_right _ hwU
        norm_num [U64_MOD] at h3
        omega
      have hcb : 1 + ops.length < U64_MOD := by
        norm_num [U64_MOD]
        omega
      obtain ⟨hc1, hc2⟩ := exp_runOps_counter_le ops s0 (by rw [hcnt0]) (by rw [hcnt0]; exact hcb)
      by_cases h1 : (s0.runOps ops).current < (s0.runOps ops).max_time_interval
      · have hwR : 1 ≤ (s0.runOps ops).min_random := by rw [f1]; exact hwU
        have hble : ((s0.runOps ops).internal_counter) ^ 2 * (s0.runOps ops).min_random <
            U64_MOD := by
          rw [f1]
          refine lt_of_le_of_lt ?_ hb
          refine Nat.mul_le_mul_right _ (Nat.pow_le_pow_left ?_ 2)
          omega
        have hni := exp_next_interval_deg d0 hdegR hc1 hwR hble
        have hmv := exp_move_next_eq hni
        set q := (s0.runOps ops).min_time_interval +
          durMillis (((s0.runOps ops).internal_counter ^ 2 - 1) * (s0.runOps ops).min_random)
          with hq
        by_cases h2 : q ≤ (s0.runOps ops).max_time_interval
        · rw [hmv, if_pos h1, if_pos h2] at hf
          exact absurd hf (by simp)
        · have hmv2 : (s0.runOps ops).move_next d0 =
              (false, { s0.runOps ops with
                internal_counter := (s0.runOps ops).internal_counter + 1 }) := by
            rw [hmv, if_pos h1, if_neg h2]
          rw [hmv2]
          refine exp_reject_perm_pos draws _ hdegR (by rw [f1]; exact hwU)
            (show 1 ≤ (s0.runOps ops).internal_counter + 1 by omega) ?_ ?_
          · show ((s0.runOps ops).internal_counter + 1 + draws.length) ^ 2 *
              (s0.runOps ops).min_random < U64_MOD
            rw [f1]
            refine lt_of_le_of_lt ?_ hb
            refine Nat.mul_le_mul_right _ (Nat.pow_le_pow_left ?_ 2)
            omega
          · show (s0.runOps ops).max_time_interval <
              (s0.runOps ops).min_time_interval +
                durMillis ((((s0.runOps ops).internal_counter + 1) ^ 2 - 1) *
                  (s0.runOps ops).min_random)
            refine lt_of_lt_of_le (Nat.not_le.mp h2) (Nat.add_le_add_left ?_ _)
            refine Nat.mul_le_mul_right _ ?_
            exact Nat.mul_le_mul_right _
              (Nat.sub_le_sub_right (Nat.pow_le_pow_left (Nat.le_succ _) 2) 1)
      · have hst : ((s0.runOps ops).move_next d0).2 = s0.runOps ops :=
          congrArg Prod.snd (exp_move_next_stuck h1 d0)
        rw [hst]
        exact exp_stuck draws _ h1

theorem c4_exhaustion_permanent_degenerate_witness :
    ((SqlIncrementalIntervalEnumerator.moveResults
        ((SqlIncrementalIntervalEnumerator.move_next
          (SqlIncrementalIntervalEnumerator.runOps ⟨1000, 1000, durSecs 9, durMillis 9500, 0⟩
            [.move 0]) 3).2) [1, 2]) = List.replicate 2 false) ∧
    ((SqlExponentialIntervalEnumerator.moveResults
        ((SqlExponentialIntervalEnumerator.move_next
          (SqlExponentialIntervalEnumerator.runOps ⟨1, 1000, 1000, durSecs 5, durSecs 20, 0⟩
            [.move 0, .move 0, .move 0, .move 0]) 3).2) [7, 8]) =
      List.replicate 2 false) :=
  ⟨c4_exhaustion_permanent_degenerate.1 (durSecs 1) (durMillis 9500) (durSecs 9) zeroF
      ⟨1000, 1000, durSecs 9, durMillis 9500, 0⟩ [.move 0] 3 [1, 2] rfl rfl (by decide),
    c4_exhaustion_permanent_degenerate.2 (durSecs 1) (durSecs 20) (durSecs 5) zeroF
      ⟨1, 1000, 1000, durSecs 5, durSecs 20, 0⟩ [.move 0, .move 0, .move 0, .move 0] 3
      [7, 8] rfl rfl (by decide) (by decide)⟩

/-- Counterexample to claim C4 as stated: the Incremental enumerator
constructed by `new(gap = 1s, max = 10s, min = 9s)` (jitter window
`[800, 1200)`) with draws 0, 1100, 900 — all draws used inside the window —
returns `true`, then `false` (candidate 10.1 s > 10 s), then `true` again
(candidate 9.9 s ≤ 10 s): exhaustion is not permanent. -/
theorem c4_false_then_true_incremental :
    ((SqlIncrementalIntervalEnumerator.new (durSecs 1) (durSecs 10) (durSecs 9)).toOption.map
      (fun s0 => (s0.min_random, s0.max_random, s0.moveResults [0, 1100, 900]))) =
      some (800, 1200, [true, false, true]) ∧
    (800 ≤ 1100 ∧ 1100 < 1200) ∧ (800 ≤ 900 ∧ 900 < 1200) := by
  exact ⟨by decide, by decide, by decide⟩

theorem gri_fst (gap : Nat) (r : FloatQ) :
    (get_random_interval gap r).1 =
      if ((natToF (durAsMillis gap)).mul (oneF.sub r)).gtB U64_MAX_AS_F64 then
        castF64toU64 (U64_MIN_AS_F64.mul pt6F)
      else castIntU64 ((natToF (durAsMillis gap)).mul (oneF.sub r)).roundToInt := rfl

theorem gri_snd (gap : Nat) (r : FloatQ) :
    (get_random_interval gap r).2 =
      if ((natToF (durAsMillis gap)).mul (oneF.add r)).gtB U64_MAX_AS_F64 then U64_MAX
      else castIntU64 ((natToF (durAsMillis gap)).mul (oneF.add r)).roundToInt := rfl

theorem jitter_round_sat (x : FloatQ) (hd : 0 < x.den)
    (hlo : (U64_MAX : Int) * (x.den : Int) < x.num) :
    castIntU64 x.roundToInt = U64_MAX := by
  have hd' : (0 : Int) < (x.den : Int) := by exact_mod_cast hd
  have hU : (0 : Int) ≤ (U64_MAX : Int) := by positivity
  have hnum : 0 ≤ x.num := le_of_lt (lt_of_le_of_lt (by positivity) hlo)
  have hround : x.roundToInt = Int.fdiv (2 * x.num + (x.den : Int)) (2 * (x.den : Int)) := by
    unfold FloatQ.roundToInt
    rw [if_pos hnum]
  have hle : (U64_MAX : Int) ≤ x.roundToInt := by
    rw [hround, Int.fdiv_eq_ediv _ (by positivity)]
    rw [Int.le_ediv_iff_mul_le (by positivity)]
    nlinarith [hlo, hd']
  have h0r : 0 ≤ x.roundToInt := le_trans hU hle
  unfold castIntU64
  rw [if_neg (Int.not_lt.mpr h0r)]
  exact Nat.min_eq_right ((Int.le_toNat h0r).mpr hle)

theorem U64_MAX_AS_F64_spec : U64_MAX_AS_F64.num = (U64_MAX : Int) + 1 ∧
    U64_MAX_AS_F64.den = 1 := by
  constructor
  · decide
  · rfl

theorem tempden_pos (gap : Nat) {r : FloatQ} (hr : 0 < r.den) :
    0 < ((natToF (durAsMillis gap)).mul (oneF.sub r)).den := by
  simp [FloatQ.mul, FloatQ.sub, natToF, oneF]
  omega

theorem tempden_pos_add (gap : Nat) {r : FloatQ} (hr : 0 < r.den) :
    0 < ((natToF (durAsMillis gap)).mul (oneF.add r)).den := by
  simp [FloatQ.mul, FloatQ.add, natToF, oneF]
  omega

/-- Claim C8 (amended): in `get_random_interval(gap, r)` the clamp guards
compare against `u64::MAX as f64`, whose value is `2^64 = u64::MAX + 1`, not
`u64::MAX` itself.  When `gap_ms * (1+r)` exceeds `u64::MAX` the upper bound
`max_random` is `u64::MAX` (by the guard when the product exceeds `2^64`, by
round-then-saturating-cast otherwise).  When the lower-bound guard fires
(`gap_ms * (1-r) > 2^64`), `min_random` is set to
`(u64::MIN as f64 * 0.6) as u64`, which always equals zero; but when
`gap_ms * (1-r)` exceeds `u64::MAX` without exceeding `2^64`, the guard does
not fire and `min_random` saturates to `u64::MAX` instead of zero. -/
theorem c8_jitter_window_clamp_behavior (gap : Nat) (r : FloatQ) (hr : 0 < r.den) :
    ((U64_MAX : Int) * (((natToF (durAsMillis gap)).mul (oneF.add r)).den : Int) <
        ((natToF (durAsMillis gap)).mul (oneF.add r)).num →
      (get_random_interval gap r).2 = U64_MAX) ∧
    (U64_MAX_AS_F64.num = (U64_MAX : Int) + 1 ∧ U64_MAX_AS_F64.den = 1) ∧
    (((natToF (durAsMillis gap)).mul (oneF.sub r)).gtB U64_MAX_AS_F64 = true →
      (get_random_interval gap r).1 = castF64toU64 (U64_MIN_AS_F64.mul pt6F) ∧
        castF64toU64 (U64_MIN_AS_F64.mul pt6F) = 0) ∧
    ((U64_MAX : Int) * (((natToF (durAsMillis gap)).mul (oneF.sub r)).den : Int) <
        ((natToF (durAsMillis gap)).mul (oneF.sub r)).num →
      ((natToF (durAsMillis gap)).mul (oneF.sub r)).gtB U64_MAX_AS_F64 = false →
      (get_random_interval gap r).1 = U64_MAX) := by
  refine ⟨?_, U64_MAX_AS_F64_spec, ?_, ?_⟩
  · intro hlo
    rw [gri_snd]
    split_ifs with hg
    · rfl
    · exact jitter_round_sat _ (tempden_pos_add gap hr) hlo
  · intro hg
    rw [gri_fst, if_pos hg]
    exact ⟨rfl, by decide⟩
  · intro hlo hg
    rw [gri_fst, if_neg (by rw [hg]; exact Bool.false_ne_true)]
    exact jitter_round_sat _ (tempden_pos gap hr) hlo

theorem c8_jitter_window_clamp_behavior_witness :
    ((get_random_interval (durMillis (2 ^ 66)) zeroF).2 = U64_MAX) ∧
    ((get_random_interval (durMillis (2 ^ 66)) zeroF).1 =
        castF64toU64 (U64_MIN_AS_F64.mul pt6F) ∧
      castF64toU64 (U64_MIN_AS_F64.mul pt6F) = 0) ∧
    ((get_random_interval (durMillis (2 ^ 64)) zeroF).1 = U64_MAX) :=
  ⟨(c8_jitter_window_clamp_behavior (durMillis (2 ^ 66)) zeroF (by decide)).1 (by decide),
    (c8_jitter_window_clamp_behavior (durMillis (2 ^ 66)) zeroF (by decide)).2.2.1 (by decide),
    (c8_jitter_window_clamp_behavior (durMillis (2 ^ 64)) zeroF (by decide)).2.2.2
      (by decide) (by decide)⟩

/-- Counterexample to claim C8 as stated: with `gap_ms = 2^64` and
`randomness = 0.0`, the product `gap_ms * (1 - r) = 2^64` exceeds `u64::MAX`
(first conjunct), but `min_random` is `u64::MAX`, not zero: the guard
compares against `u64::MAX as f64 = 2^64` and does not fire, and the
round-then-cast saturates to `u64::MAX`. -/
theorem c8_lower_clamp_boundary_not_zero :
    ((U64_MAX : Int) *
        ((((natToF (durAsMillis (durMillis (2 ^ 64)))).mul (oneF.sub zeroF)).den : Int)) <
      ((natToF (durAsMillis (durMillis (2 ^ 64)))).mul (oneF.sub zeroF)).num) ∧
    (get_random_interval (durMillis (2 ^ 64)) zeroF).1 = U64_MAX ∧
    U64_MAX ≠ 0 := by
  exact ⟨by decide, by decide, by decide⟩

end RetryEnumerators

end SqlClient
